import Mathlib

/-!
Shallow embedding of the RTS simulation core of this repository
(src/server/game.ts together with the constant tables of
src/shared/schema.ts).

Modelling conventions, chosen to match the JavaScript semantics of the
source exactly:

* Numbers (coordinates, hit points, resources, timers) are real numbers;
  the source computes with floats, including Math.sqrt, so the exact-real
  model is used and square roots appear literally where the source calls
  Math.sqrt.
* Identifiers (randomUUID strings, resource ids, player ids) are modelled
  as naturals; nothing in the core depends on their string structure.
  randomUUID is modelled by a fresh-id counter nextId carried in the state.
* JS objects used as insertion-ordered string-keyed maps (state.players,
  state.entities) are association lists; object iteration order, first
  match lookup and Object.values/Object.keys order are the list order.
* Optional / possibly-undefined fields are Option; reading a field of an
  undefined value (a JS TypeError) is modelled in the command processor
  handleAction by returning Except.error.  Inside the tick loop the source
  can only fail on stats-table lookups and on a missing player entry;
  such states are reachable only through a poisoned command (a build or
  train whose type string has a COSTS row but no stats row).  Those throw
  spots are modelled as no-ops and are marked by comments where they
  occur; no claim theorem quantifies a whole tick across them.
* Union string tags ('hub', 'gathering', 'action_move', ...) stay strings.
-/

noncomputable section

open Classical

namespace RTS

/-- World coordinates, schema.ts Position. -/
structure Position where
  x : ℝ
  y : ℝ

/-- A harvestable node of GameState.resources. -/
structure ResourceNode where
  id : Nat
  type : String
  amount : ℝ
  position : Position

/-- Per-player resource record (wood / stone / iron / ladders). -/
structure Resources where
  wood : ℝ
  stone : ℝ
  iron : ℝ
  ladders : ℝ

/-- schema.ts PlayerState. -/
structure PlayerState where
  id : Nat
  color : String
  resources : Resources
  population : ℝ

/-- schema.ts Entity, including the untyped destination and climbTimer
fields game.ts bolts on with casts. -/
structure Entity where
  id : Nat
  playerId : Nat
  type : String
  position : Position
  hp : ℝ
  maxHp : ℝ
  state : String
  targetId : Option Nat
  targetPosition : Option Position
  buildType : Option String
  productionQueue : Option (List String)
  productionTimer : Option ℝ
  isClimbing : Bool
  climbTimer : Option ℝ
  destination : Option Position

/-- schema.ts GameState.  nextId models the stream of fresh ids the source
draws from randomUUID / Date.now-based names. -/
structure GameState where
  id : Nat
  status : String
  players : List (Nat × PlayerState)
  entities : List (Nat × Entity)
  resources : List ResourceNode
  winner : Option Nat
  startTime : Option ℝ
  resourceClusters : List Position
  nextId : Nat

/-- The payload object of a client intent; every field may be absent
(JS undefined), as the transport layer performs no validation. -/
structure Payload where
  entityIds : Option (List Nat)
  target : Option Position
  targetEntityId : Option Nat
  resourceId : Option Nat
  buildingType : Option String
  position : Option Position
  builderId : Option Nat
  buildingId : Option Nat
  unitType : Option String

/-- An incoming intent: a type string plus an optional payload object. -/
structure Action where
  type : String
  payload : Option Payload

/-- Unit stat rows of schema.ts UNIT_STATS. -/
structure UnitStats where
  hp : ℝ
  attack : ℝ
  speed : ℝ
  range : ℝ

/-- Building stat rows of schema.ts BUILDING_STATS. -/
structure BuildingStats where
  hp : ℝ
  size : ℝ

/-- A cost row of schema.ts COSTS; an absent field of the partial record
is 0, which has the same JS truthiness as undefined in every use. -/
structure Cost where
  wood : ℝ
  stone : ℝ
  iron : ℝ

/-- schema.ts COSTS, indexed by the raw type string; none models an
absent key (whose .wood access would throw in the source). -/
def COSTS : String → Option Cost
  | "lumberjack" => some ⟨3, 5, 0⟩
  | "miner" => some ⟨5, 2, 0⟩
  | "knight" => some ⟨2, 3, 5⟩
  | "archer" => some ⟨5, 5, 5⟩
  | "builder" => some ⟨5, 5, 0⟩
  | "hub" => some ⟨0, 0, 0⟩
  | "barracks" => some ⟨10, 15, 0⟩
  | "iron_works" => some ⟨15, 10, 0⟩
  | "factory" => some ⟨10, 10, 0⟩
  | "wall" => some ⟨5, 5, 0⟩
  | "watchtower" => some ⟨20, 20, 10⟩
  | "iron_ingot" => some ⟨0, 5, 0⟩
  | "ladder" => some ⟨5, 0, 0⟩
  | _ => none

/-- schema.ts PRODUCTION_TIME. -/
def PRODUCTION_TIME : String → Option ℝ
  | "iron_ingot" => some 5000
  | "ladder" => some 5000
  | "knight" => some 10000
  | "archer" => some 10000
  | "miner" => some 3000
  | "lumberjack" => some 3000
  | "builder" => some 5000
  | _ => none

/-- schema.ts UNIT_STATS. -/
def UNIT_STATS : String → Option UnitStats
  | "lumberjack" => some ⟨20, 2, 1.5, 10⟩
  | "miner" => some ⟨20, 2, 1.5, 10⟩
  | "knight" => some ⟨80, 10, 2, 15⟩
  | "archer" => some ⟨40, 8, 1.8, 150⟩
  | "builder" => some ⟨30, 2, 1.4, 10⟩
  | _ => none

/-- schema.ts BUILDING_STATS. -/
def BUILDING_STATS : String → Option BuildingStats
  | "hub" => some ⟨1000, 60⟩
  | "barracks" => some ⟨300, 50⟩
  | "iron_works" => some ⟨300, 50⟩
  | "factory" => some ⟨300, 50⟩
  | "wall" => some ⟨500, 40⟩
  | "watchtower" => some ⟨400, 40⟩
  | _ => none

/-- BUILDING_STATS.wall.size, the static lookup of the wall-collision
check in moveTowards. -/
def wallSize : ℝ := 40

/-- First-match lookup in a JS object modelled as an association list. -/
def mapLookup {α : Type} (m : List (Nat × α)) (k : Nat) : Option α :=
  (m.find? (fun p => p.1 == k)).map (fun p => p.2)

/-- In-place mutation of the entry with the given key. -/
def mapUpdate {α : Type} (m : List (Nat × α)) (k : Nat) (f : α → α) :
    List (Nat × α) :=
  m.map (fun p => if p.1 = k then (p.1, f p.2) else p)

/-- JS delete of a key; remaining insertion order is unchanged. -/
def mapDelete {α : Type} (m : List (Nat × α)) (k : Nat) : List (Nat × α) :=
  m.filter (fun p => p.1 != k)

/-- A freshly created entity object: the literal the source builds at
each spawn site, with every transient field absent. -/
def freshEntity (id pid : Nat) (ty : String) (pos : Position) (hp : ℝ) : Entity :=
  { id := id, playerId := pid, type := ty, position := pos, hp := hp, maxHp := hp,
    state := "idle", targetId := none, targetPosition := none, buildType := none,
    productionQueue := none, productionTimer := none, isClimbing := false,
    climbTimer := none, destination := none }

/-- Game.distance: Euclidean distance via Math.sqrt. -/
def distance (p1 p2 : Position) : ℝ :=
  Real.sqrt ((p1.x - p2.x) ^ 2 + (p1.y - p2.y) ^ 2)

/-- UNIT_STATS lookup with ?.speed and the || 1 fallback of moveTowards
(every listed speed is nonzero, so || coincides with the default). -/
def unitSpeed (t : String) : ℝ :=
  ((UNIT_STATS t).map (fun s => s.speed)).getD 1

/-- The projected next position (nextX, nextY) of Game.moveTowards for a
step of remaining distance greater than 5. -/
def stepPos (e : Entity) (target : Position) : Position :=
  let speed := unitSpeed e.type * 3
  let dx := target.x - e.position.x
  let dy := target.y - e.position.y
  let dist := Real.sqrt (dx * dx + dy * dy)
  ⟨e.position.x + dx / dist * speed, e.position.y + dy / dist * speed⟩

/-- The wall-collision scan of Game.moveTowards: some live wall-type
entity of any player lies within wallSize / 2 + 10 of the point. -/
def wallCollision (g : GameState) (next : Position) : Prop :=
  ∃ p ∈ g.entities, p.2.type = "wall" ∧ p.2.hp > 0 ∧
    Real.sqrt ((p.2.position.x - next.x) ^ 2 + (p.2.position.y - next.y) ^ 2) <
      wallSize / 2 + 10

/-- Game.moveTowards.  Mutates only the moving entity: steps toward the
target at speed × 3, rejecting the step on a wall collision (unless the
mover is climbing), and snapping exactly onto the target when the
remaining distance is at most 5 — with no collision check on that snap. -/
def moveTowards (g : GameState) (e : Entity) (target : Position) : Entity :=
  let dx := target.x - e.position.x
  let dy := target.y - e.position.y
  let dist := Real.sqrt (dx * dx + dy * dy)
  if dist > 5 then
    if ¬e.isClimbing ∧ wallCollision g (stepPos e target) then
      if e.state = "moving" then { e with state := "idle", destination := none }
      else e
    else
      { e with position := stepPos e target }
  else
    { e with position := target }

/-- The construction clause of Game.handleEntityBehavior (state
'building'): walk to the site, and on arrival spawn the building and
reset the builder. -/
def buildingStep (g : GameState) (k : Nat) : GameState :=
  match mapLookup g.entities k with
  | none => g
  | some e =>
    if e.state = "building" then
      match e.targetPosition with
      | none => g
      | some tp =>
        if distance e.position tp > 30 then
          { g with entities := mapUpdate g.entities k (fun e' => moveTowards g e' tp) }
        else
          match e.buildType with
          | none => g
          | some bt =>
            match BUILDING_STATS bt with
            | none => g  -- the source would throw reading .hp of a missing stats row
            | some bs =>
              { g with
                entities :=
                  mapUpdate g.entities k (fun e' =>
                    { e' with state := "idle", targetPosition := none, buildType := none }) ++
                  [(g.nextId, freshEntity g.nextId e.playerId bt tp bs.hp)],
                nextId := g.nextId + 1 }
    else g

/-- One gather contact: the first resource with the given id loses 10 and
is spliced out when its amount drops to 0 or below. -/
def gatherFrom (rs : List ResourceNode) (t : Nat) : List ResourceNode :=
  match rs with
  | [] => []
  | r :: rest =>
    if r.id = t then
      if r.amount - 10 ≤ 0 then rest
      else { r with amount := r.amount - 10 } :: rest
    else r :: gatherFrom rest t

/-- The gathering clause of Game.handleEntityBehavior. -/
def gatheringStep (g : GameState) (k : Nat) : GameState :=
  match mapLookup g.entities k with
  | none => g
  | some e =>
    if e.state = "gathering" then
      match e.targetId with
      | none => g
      | some t =>
        match g.resources.find? (fun r => r.id == t) with
        | some r =>
          if distance e.position r.position < 30 then
            { g with
              resources := gatherFrom g.resources t,
              entities := mapUpdate g.entities k (fun e' => { e' with state := "returning" }) }
          else
            { g with entities := mapUpdate g.entities k (fun e' => moveTowards g e' r.position) }
        | none =>
          { g with entities := mapUpdate g.entities k (fun e' => { e' with state := "idle" }) }
    else g

/-- The returning clause of Game.handleEntityBehavior: the first hub of
the same owner (regardless of its hp) is the drop-off point; within 50
the owner is credited 1 wood (lumberjack) or stone (otherwise) and the
unit resumes gathering with its targetId untouched.  The source reads
players[entity.playerId] unconditionally and would throw were the owner
missing; the credit is modelled on the owner's entry when present. -/
def returningStep (g : GameState) (k : Nat) : GameState :=
  match mapLookup g.entities k with
  | none => g
  | some e =>
    if e.state = "returning" then
      match g.entities.find? (fun p => p.2.type == "hub" && p.2.playerId == e.playerId) with
      | some hubPair =>
        if distance e.position hubPair.2.position < 50 then
          { g with
            players := mapUpdate g.players e.playerId (fun pl =>
              if e.type = "lumberjack" then
                { pl with resources := { pl.resources with wood := pl.resources.wood + 1 } }
              else
                { pl with resources := { pl.resources with stone := pl.resources.stone + 1 } }),
            entities := mapUpdate g.entities k (fun e' => { e' with state := "gathering" }) }
        else
          { g with entities := mapUpdate g.entities k (fun e' => moveTowards g e' hubPair.2.position) }
      | none => g
    else g

/-- The ladder count the combat clause reads from
players[entity.playerId].resources.ladders (the source would throw on a
missing owner; that read only happens when the target is a wall). -/
def playerLadders (g : GameState) (pid : Nat) : ℝ :=
  ((mapLookup g.players pid).map (fun pl => pl.resources.ladders)).getD 0

/-- The combat clause of Game.handleEntityBehavior, including the
ladder-climbing sub-mechanic.  Sequential field mutations of the source
are threaded as e, e1, e2. -/
def attackingStep (g : GameState) (k : Nat) : GameState :=
  match mapLookup g.entities k with
  | none => g
  | some e =>
    if e.state = "attacking" then
      match e.targetId with
      | none => g
      | some t =>
        match mapLookup g.entities t with
        | none =>
          { g with entities := mapUpdate g.entities k (fun e' =>
              { e' with state := "idle", isClimbing := false }) }
        | some target =>
          match UNIT_STATS e.type with
          | none => g
          | some stats =>
            let dist := distance e.position target.position
            let climbStart :=
              target.type = "wall" ∧ playerLadders g e.playerId > 0 ∧
                e.isClimbing = false ∧ dist < 40
            let g1 := if climbStart then
                { g with players := mapUpdate g.players e.playerId (fun pl =>
                    { pl with resources :=
                        { pl.resources with ladders := pl.resources.ladders - 1 } }) }
              else g
            let e1 := if climbStart then
                { e with isClimbing := true, climbTimer := some 10000 }
              else e
            let e2 := if e1.isClimbing then
                (let t' := e1.climbTimer.getD 0 - 100
                 if t' ≤ 0 then { e1 with isClimbing := false, climbTimer := none }
                 else { e1 with climbTimer := some t' })
              else e1
            if dist ≤ stats.range + 10 then
              if e2.isClimbing = true ∧ target.type = "wall" then
                { g1 with entities := mapUpdate g1.entities k (fun _ =>
                    moveTowards g1 e2 (e2.destination.getD
                      ⟨target.position.x + 40, target.position.y + 40⟩)) }
              else
                { g1 with entities :=
                    mapUpdate (mapUpdate g1.entities k (fun _ => e2)) t (fun tgt =>
                      { tgt with hp := tgt.hp - stats.attack * 0.2 }) }
            else
              { g1 with entities := mapUpdate g1.entities k (fun _ =>
                  moveTowards g1 e2 target.position) }
    else g

/-- The production clause of Game.handleEntityBehavior.  A 'producing'
state with no queue at all would throw in the source (productionQueue![0])
and is modelled as a no-op. -/
def productionStep (g : GameState) (k : Nat) : GameState :=
  match mapLookup g.entities k with
  | none => g
  | some e =>
    match e.productionQueue with
    | none => g
    | some q =>
      if e.state = "producing" ∨ q ≠ [] then
        let prodTime := ((q.head?.bind PRODUCTION_TIME)).getD 5000
        let timer0 := if e.productionTimer.getD 0 = 0 then prodTime else e.productionTimer.getD 0
        let st0 := if e.productionTimer.getD 0 = 0 then "producing" else e.state
        let timer1 := timer0 - 100
        if timer1 ≤ 0 then
          let g1 := match q.head? with
            | some item =>
              if item = "iron_ingot" then
                { g with players := mapUpdate g.players e.playerId (fun pl =>
                    { pl with resources := { pl.resources with iron := pl.resources.iron + 1 } }) }
              else if item = "ladder" then
                { g with players := mapUpdate g.players e.playerId (fun pl =>
                    { pl with resources :=
                        { pl.resources with ladders := pl.resources.ladders + 1 } }) }
              else
                match UNIT_STATS item with
                | none => g  -- the source would throw reading .hp of a missing stats row
                | some us =>
                  { g with
                    entities := g.entities ++
                      [(g.nextId, freshEntity g.nextId e.playerId item
                          ⟨e.position.x + 80, e.position.y + 80⟩ us.hp)],
                    nextId := g.nextId + 1 }
            | none => g
          let st1 := if q.tail = [] then "idle" else st0
          { g1 with entities := mapUpdate g1.entities k (fun e' =>
              { e' with productionQueue := some q.tail, productionTimer := none, state := st1 }) }
        else
          { g with entities := mapUpdate g.entities k (fun e' =>
              { e' with productionTimer := some timer1, state := st0 }) }
      else g

/-- The plain-movement clause (state 'moving' with no target entity):
within 5 of the destination the entity goes idle and clears the
destination — its position is not touched; otherwise it steps via
moveTowards. -/
def movingStep (g : GameState) (k : Nat) : GameState :=
  match mapLookup g.entities k with
  | none => g
  | some e =>
    if e.state = "moving" ∧ e.targetId = none then
      match e.destination with
      | none => g
      | some dest =>
        if distance e.position dest < 5 then
          { g with entities := mapUpdate g.entities k (fun e' =>
              { e' with state := "idle", destination := none }) }
        else
          { g with entities := mapUpdate g.entities k (fun e' => moveTowards g e' dest) }
    else g

/-- Game.handleEntityBehavior: the source's sequence of independent if
clauses over the same mutable entity, so a transition made by one clause
is visible to the clauses after it within the same tick. -/
def handleEntityBehavior (g : GameState) (k : Nat) : GameState :=
  movingStep (productionStep (attackingStep (returningStep (gatheringStep (buildingStep g k) k) k) k) k) k

/-- One iteration of the tick's entity loop: prune at hp ≤ 0 (a dead hub
records the first player id different from its owner as winner and stops
the game), otherwise run the behavior machine. -/
def tickStep (g : GameState) (k : Nat) : GameState :=
  match mapLookup g.entities k with
  | none => g
  | some e =>
    if e.hp ≤ 0 then
      let g1 := if e.type = "hub" then
          { g with
            winner := (g.players.map Prod.fst).find? (fun pid => pid != e.playerId),
            status := "ended" }
        else g
      { g1 with entities := mapDelete g1.entities k }
    else
      handleEntityBehavior g k

/-- Game.tick: no-op without snapshot when not playing; otherwise walk
the keys present at loop entry (the for-in key snapshot; properties added
during the walk are not visited) and emit a snapshot.  The Bool records
whether onUpdate fired. -/
def tick (g : GameState) : GameState × Bool :=
  if g.status = "playing" then
    ((g.entities.map Prod.fst).foldl tickStep g, true)
  else (g, false)

/-- One entity of an action_move sweep: owned entities are set moving
toward the (possibly absent) target with their entity target cleared. -/
def moveOne (pid : Nat) (target : Option Position) (g : GameState) (i : Nat) : GameState :=
  match mapLookup g.entities i with
  | some e =>
    if e.playerId = pid then
      { g with entities := mapUpdate g.entities i (fun e' =>
          { e' with state := "moving", destination := target, targetId := none }) }
    else g
  | none => g

/-- One entity of an action_gather sweep (workers only). -/
def gatherOne (pid : Nat) (resourceId : Option Nat) (g : GameState) (i : Nat) : GameState :=
  match mapLookup g.entities i with
  | some e =>
    if e.playerId = pid ∧ (e.type = "lumberjack" ∨ e.type = "miner") then
      { g with entities := mapUpdate g.entities i (fun e' =>
          { e' with state := "gathering", targetId := resourceId }) }
    else g
  | none => g

/-- One entity of an action_attack sweep. -/
def attackOne (pid : Nat) (targetEntityId : Option Nat) (g : GameState) (i : Nat) : GameState :=
  match mapLookup g.entities i with
  | some e =>
    if e.playerId = pid then
      { g with entities := mapUpdate g.entities i (fun e' =>
          { e' with state := "attacking", targetId := targetEntityId }) }
    else g
  | none => g

/-- The deduction the source performs field by field, guarded by JS
truthiness of each cost component. -/
def deductCost (cost : Cost) (withIron : Bool) (pl : PlayerState) : PlayerState :=
  { pl with resources :=
      { pl.resources with
        wood := if cost.wood ≠ 0 then pl.resources.wood - cost.wood else pl.resources.wood,
        stone := if cost.stone ≠ 0 then pl.resources.stone - cost.stone else pl.resources.stone,
        iron := if withIron ∧ cost.iron ≠ 0 then pl.resources.iron - cost.iron
                else pl.resources.iron } }

/-- Game.handleAction.  The source's four independent ifs on distinct
action.type strings are an if chain; destructuring a missing payload, or
reading a field of an undefined value (entityIds.length, COSTS of an
unknown type, resources of a missing player), throws: Except.error.  The
hub branch's isValidSpot (.some) and snap target (.find) coincide in the
first matching cluster center. -/
def handleAction (pid : Nat) (a : Action) (g : GameState) : Except Unit GameState :=
  if a.type = "action_move" then
    match a.payload with
    | none => .error ()
    | some pay =>
      match pay.entityIds with
      | none => .error ()  -- console.log template reads entityIds.length
      | some ids => .ok (ids.foldl (moveOne pid pay.target) g)
  else if a.type = "action_gather" then
    match a.payload with
    | none => .error ()
    | some pay =>
      match pay.entityIds with
      | none => .error ()  -- entityIds.forEach on undefined
      | some ids => .ok (ids.foldl (gatherOne pid pay.resourceId) g)
  else if a.type = "action_attack" then
    match a.payload with
    | none => .error ()
    | some pay =>
      match pay.entityIds with
      | none => .error ()  -- entityIds.forEach on undefined
      | some ids => .ok (ids.foldl (attackOne pid pay.targetEntityId) g)
  else if a.type = "action_build" then
    match a.payload with
    | none => .error ()
    | some pay =>
      if pay.buildingType = some "hub" then
        match pay.position with
        | none =>
          -- distance(position, center) dereferences the undefined position
          -- inside .some; with no clusters the callback never runs.
          if g.resourceClusters = [] then .ok g else .error ()
        | some pos =>
          match g.resourceClusters.find? (fun c => decide (distance pos c < 60)) with
          | none => .ok g
          | some c =>
            match g.entities.find? (fun p => p.2.type == "hub" && p.2.playerId == pid) with
            | some hubPair =>
              .ok { g with entities :=
                      mapUpdate g.entities hubPair.1 (fun e' => { e' with position := c }) }
            | none =>
              .ok { g with
                entities := g.entities ++ [(g.nextId, freshEntity g.nextId pid "hub" c 1000)],
                nextId := g.nextId + 1 }
      else
        match pay.builderId with
        | none => .ok g
        | some bId =>
          match mapLookup g.entities bId with
          | none => .ok g
          | some builder =>
            if builder.type = "builder" ∧ builder.playerId = pid then
              match pay.buildingType with
              | none => .error ()  -- COSTS[undefined].wood
              | some bt =>
                match COSTS bt with
                | none => .error ()  -- COSTS[bt] undefined, .wood throws
                | some cost =>
                  match mapLookup g.players pid with
                  | none =>
                    -- player.resources is only read behind a truthy cost
                    -- component; with both zero nothing is read or written.
                    if cost.wood = 0 ∧ cost.stone = 0 then
                      .ok { g with entities := mapUpdate g.entities bId (fun e' =>
                              { e' with state := "building", targetPosition := pay.position,
                                        buildType := some bt }) }
                    else .error ()
                  | some pl =>
                    if (cost.wood ≠ 0 ∧ pl.resources.wood < cost.wood) ∨
                       (cost.stone ≠ 0 ∧ pl.resources.stone < cost.stone) then
                      .ok g
                    else
                      .ok { g with
                        players := mapUpdate g.players pid (deductCost cost false),
                        entities := mapUpdate g.entities bId (fun e' =>
                          { e' with state := "building", targetPosition := pay.position,
                                    buildType := some bt }) }
            else .ok g
  else if a.type = "action_train" then
    match a.payload with
    | none => .error ()
    | some pay =>
      match pay.buildingId with
      | none => .ok g  -- entities[undefined] is undefined, guard is false
      | some bId =>
        match mapLookup g.entities bId with
        | none => .ok g
        | some b =>
          if b.playerId = pid then
            match pay.unitType with
            | none => .error ()  -- COSTS[undefined].wood
            | some u =>
              match COSTS u with
              | none => .error ()
              | some cost =>
                match mapLookup g.players pid with
                | none =>
                  if cost.wood = 0 ∧ cost.stone = 0 ∧ cost.iron = 0 then
                    .ok { g with entities := mapUpdate g.entities bId (fun e' =>
                            { e' with
                                productionQueue := some (e'.productionQueue.getD [] ++ [u]) }) }
                  else .error ()
                | some pl =>
                  if (cost.wood ≠ 0 ∧ pl.resources.wood < cost.wood) ∨
                     (cost.stone ≠ 0 ∧ pl.resources.stone < cost.stone) ∨
                     (cost.iron ≠ 0 ∧ pl.resources.iron < cost.iron) then
                    .ok g
                  else
                    .ok { g with
                      players := mapUpdate g.players pid (deductCost cost true),
                      entities := mapUpdate g.entities bId (fun e' =>
                        { e' with
                            productionQueue := some (e'.productionQueue.getD [] ++ [u]) }) }
          else .ok g
  else .ok g

/-- A sample player record for concrete test states. -/
def exPlayer (n : Nat) (c : String) : PlayerState :=
  { id := n, color := c, resources := { wood := 5, stone := 5, iron := 0, ladders := 0 },
    population := 0 }

/-- A destroyed hub of player 1 (hp already at 0). -/
def exDeadHub : Entity :=
  { id := 10, playerId := 1, type := "hub", position := ⟨100, 100⟩, hp := 0,
    maxHp := 1000, state := "idle", targetId := none, targetPosition := none,
    buildType := none, productionQueue := none, productionTimer := none,
    isClimbing := false, climbTimer := none, destination := none }

/-- Two-player game whose only entity is player 1's destroyed hub. -/
def exC1 : GameState :=
  { id := 0, status := "playing",
    players := [(1, exPlayer 1 "blue"), (2, exPlayer 2 "red")],
    entities := [(10, exDeadHub)],
    resources := [], winner := none, startTime := none, resourceClusters := [],
    nextId := 100 }

/-- Player 2's destroyed hub (hp already at 0), second in iteration
order. -/
def exDeadHub2 : Entity :=
  { id := 11, playerId := 2, type := "hub", position := ⟨200, 200⟩, hp := 0,
    maxHp := 1000, state := "idle", targetId := none, targetPosition := none,
    buildType := none, productionQueue := none, productionTimer := none,
    isClimbing := false, climbTimer := none, destination := none }

/-- Two-player game in which both hubs are already destroyed at tick
entry: player 1's under key 10, player 2's under key 11. -/
def exC1b : GameState :=
  { id := 0, status := "playing",
    players := [(1, exPlayer 1 "blue"), (2, exPlayer 2 "red")],
    entities := [(10, exDeadHub), (11, exDeadHub2)],
    resources := [], winner := none, startTime := none, resourceClusters := [],
    nextId := 100 }

/-- exC1b after the walk's first encounter (hub 10 pruned, winner 2). -/
def exC1bMid : GameState :=
  { id := 0, status := "ended",
    players := [(1, exPlayer 1 "blue"), (2, exPlayer 2 "red")],
    entities := [(11, exDeadHub2)],
    resources := [], winner := some 2, startTime := none, resourceClusters := [],
    nextId := 100 }

/-- exC1b after the whole walk (hub 11 pruned too, winner overwritten
to 1). -/
def exC1bEnd : GameState :=
  { id := 0, status := "ended",
    players := [(1, exPlayer 1 "blue"), (2, exPlayer 2 "red")],
    entities := [],
    resources := [], winner := some 1, startTime := none, resourceClusters := [],
    nextId := 100 }

/-- An idle knight of player 1 with 1 hp, first in iteration order. -/
def exVictim : Entity :=
  { id := 1, playerId := 1, type := "knight", position := ⟨0, 0⟩, hp := 1,
    maxHp := 80, state := "idle", targetId := none, targetPosition := none,
    buildType := none, productionQueue := none, productionTimer := none,
    isClimbing := false, climbTimer := none, destination := none }

/-- A knight of player 2 attacking entity 1, second in iteration order. -/
def exAttacker : Entity :=
  { id := 2, playerId := 2, type := "knight", position := ⟨0, 0⟩, hp := 80,
    maxHp := 80, state := "attacking", targetId := some 1, targetPosition := none,
    buildType := none, productionQueue := none, productionTimer := none,
    isClimbing := false, climbTimer := none, destination := none }

/-- Two-player game where the attacker is iterated after its victim. -/
def exC5 : GameState :=
  { id := 0, status := "playing",
    players := [(1, exPlayer 1 "blue"), (2, exPlayer 2 "red")],
    entities := [(1, exVictim), (2, exAttacker)],
    resources := [], winner := none, startTime := none, resourceClusters := [],
    nextId := 100 }

/-- A unit in plain moving state 3u away from its destination. -/
def exMover : Entity :=
  { id := 1, playerId := 1, type := "lumberjack", position := ⟨3, 0⟩, hp := 20,
    maxHp := 20, state := "moving", targetId := none, targetPosition := none,
    buildType := none, productionQueue := none, productionTimer := none,
    isClimbing := false, climbTimer := none, destination := some ⟨0, 0⟩ }

/-- One-player game containing just the almost-arrived mover. -/
def exC8 : GameState :=
  { id := 0, status := "playing",
    players := [(1, exPlayer 1 "blue")],
    entities := [(1, exMover)],
    resources := [], winner := none, startTime := none, resourceClusters := [],
    nextId := 100 }

/-- A lumberjack of player 1 heading home with wood, still bound to
resource node 5. -/
def exReturner : Entity :=
  { id := 1, playerId := 1, type := "lumberjack", position := ⟨0, 0⟩, hp := 20,
    maxHp := 20, state := "returning", targetId := some 5, targetPosition := none,
    buildType := none, productionQueue := none, productionTimer := none,
    isClimbing := false, climbTimer := none, destination := none }

/-- Player 1's intact hub 10u from the returner. -/
def exHomeHub : Entity :=
  { id := 2, playerId := 1, type := "hub", position := ⟨10, 0⟩, hp := 1000,
    maxHp := 1000, state := "idle", targetId := none, targetPosition := none,
    buildType := none, productionQueue := none, productionTimer := none,
    isClimbing := false, climbTimer := none, destination := none }

/-- One-player game with the returning lumberjack and its hub. -/
def exC6 : GameState :=
  { id := 0, status := "playing",
    players := [(1, exPlayer 1 "blue")],
    entities := [(1, exReturner), (2, exHomeHub)],
    resources := [], winner := none, startTime := none, resourceClusters := [],
    nextId := 100 }

/-- A live wall at the origin. -/
def exWall : Entity :=
  { id := 3, playerId := 2, type := "wall", position := ⟨0, 0⟩, hp := 500,
    maxHp := 500, state := "idle", targetId := none, targetPosition := none,
    buildType := none, productionQueue := none, productionTimer := none,
    isClimbing := false, climbTimer := none, destination := none }

/-- A knight in plain moving state 35u east of the wall. -/
def exKnightMover : Entity :=
  { id := 4, playerId := 1, type := "knight", position := ⟨35, 0⟩, hp := 80,
    maxHp := 80, state := "moving", targetId := none, targetPosition := none,
    buildType := none, productionQueue := none, productionTimer := none,
    isClimbing := false, climbTimer := none, destination := some ⟨0, 0⟩ }

/-- A lumberjack 2u from its destination, which lies 12u from the wall. -/
def exSnapper : Entity :=
  { id := 5, playerId := 1, type := "lumberjack", position := ⟨14, 0⟩, hp := 20,
    maxHp := 20, state := "moving", targetId := none, targetPosition := none,
    buildType := none, productionQueue := none, productionTimer := none,
    isClimbing := false, climbTimer := none, destination := some ⟨12, 0⟩ }

/-- A game whose only entity is the wall at the origin. -/
def exC7 : GameState :=
  { id := 0, status := "playing",
    players := [(1, exPlayer 1 "blue")],
    entities := [(3, exWall)],
    resources := [], winner := none, startTime := none, resourceClusters := [],
    nextId := 100 }

/-- Player 1's hub far from the cluster, stored under key 7. -/
def exC2Hub : Entity :=
  { id := 7, playerId := 1, type := "hub", position := ⟨500, 500⟩, hp := 1000,
    maxHp := 1000, state := "idle", targetId := none, targetPosition := none,
    buildType := none, productionQueue := none, productionTimer := none,
    isClimbing := false, climbTimer := none, destination := none }

/-- A game with one stored cluster center and player 1's existing hub. -/
def exC2 : GameState :=
  { id := 0, status := "playing",
    players := [(1, exPlayer 1 "blue")],
    entities := [(7, exC2Hub)],
    resources := [], winner := none, startTime := none,
    resourceClusters := [⟨250, 250⟩],
    nextId := 100 }

/-- The Build(hub) payload requesting a spot 10u off the cluster center. -/
def exHubPay : Payload :=
  { entityIds := none, target := none, targetEntityId := none, resourceId := none,
    buildingType := some "hub", position := some ⟨260, 250⟩, builderId := none,
    buildingId := none, unitType := none }

/-- A player holding only 3 wood. -/
def exPoor : PlayerState :=
  { id := 1, color := "blue",
    resources := { wood := 3, stone := 5, iron := 0, ladders := 0 },
    population := 0 }

/-- A game where the poor player owns a hub under key 2. -/
def exC3 : GameState :=
  { id := 0, status := "playing",
    players := [(1, exPoor)],
    entities := [(2, exHomeHub)],
    resources := [], winner := none, startTime := none, resourceClusters := [],
    nextId := 100 }

/-- A Train(miner) payload addressed to the entity under key 2. -/
def exTrainPay : Payload :=
  { entityIds := none, target := none, targetEntityId := none, resourceId := none,
    buildingType := none, position := none, builderId := none,
    buildingId := some 2, unitType := some "miner" }

/-- A Train(miner) payload addressed to the entity under key 1 (a knight
in exC5). -/
def exTrainPay1 : Payload :=
  { entityIds := none, target := none, targetEntityId := none, resourceId := none,
    buildingType := none, position := none, builderId := none,
    buildingId := some 1, unitType := some "miner" }

/-- Verification relation for the tick loop: every entity of the later
state is either untouched, or an in-place morph that kept hp and type and
is not attacking, or a non-attacking entity with positive hp (a spawn). -/
def entityEvol (g g' : GameState) : Prop :=
  ∀ i v, mapLookup g'.entities i = some v →
    mapLookup g.entities i = some v ∨
    (∃ v0, mapLookup g.entities i = some v0 ∧ v.hp = v0.hp ∧ v.type = v0.type ∧
      v.state ≠ "attacking") ∨
    (v.state ≠ "attacking" ∧ 0 < v.hp)

/-! Generic facts about the association-list map operations. -/

theorem mapLookup_nil {α : Type} (i : Nat) : mapLookup ([] : List (Nat × α)) i = none := rfl

theorem mapLookup_cons {α : Type} (p : Nat × α) (m : List (Nat × α)) (i : Nat) :
    mapLookup (p :: m) i = if p.1 = i then some p.2 else mapLookup m i := by
  by_cases h : p.1 = i
  · rw [if_pos h]
    unfold mapLookup
    rw [List.find?_cons_of_pos _ (by simpa using h)]
    rfl
  · rw [if_neg h]
    unfold mapLookup
    rw [List.find?_cons_of_neg _ (by simpa using h)]

theorem mapLookup_update {α : Type} (m : List (Nat × α)) (k : Nat) (f : α → α) (i : Nat) :
    mapLookup (mapUpdate m k f) i =
      if i = k then (mapLookup m k).map f else mapLookup m i := by
  induction m with
  | nil => by_cases hik : i = k <;> simp [mapUpdate, mapLookup, hik]
  | cons p m ih =>
    have hexp : mapUpdate (p :: m) k f =
        (if p.1 = k then (p.1, f p.2) else p) :: mapUpdate m k f := by
      simp [mapUpdate]
    rw [hexp]
    by_cases hp : p.1 = k <;> by_cases hpi : p.1 = i
    · have hik : i = k := by omega
      simp [mapLookup_cons, hp, hpi, hik, ih]
    · have hik : ¬ i = k := by omega
      have hki : ¬ k = i := by omega
      simp [mapLookup_cons, hp, hpi, hik, hki, ih]
    · have hik : ¬ i = k := by omega
      simp [mapLookup_cons, hp, hpi, hik, ih]
    · by_cases hik : i = k
      · subst hik
        simp [mapLookup_cons, hp, hpi, ih]
      · simp [mapLookup_cons, hp, hpi, hik, ih]

theorem mapLookup_append {α : Type} (m l : List (Nat × α)) (i : Nat) :
    mapLookup (m ++ l) i =
      match mapLookup m i with
      | some v => some v
      | none => mapLookup l i := by
  induction m with
  | nil => simp [mapLookup]
  | cons p m ih =>
    rw [List.cons_append, mapLookup_cons, mapLookup_cons]
    by_cases hp : p.1 = i
    · simp [hp]
    · simp [hp, ih]

theorem mapLookup_append_left {α : Type} {m : List (Nat × α)} {i : Nat} {v : α}
    (h : mapLookup m i = some v) (l : List (Nat × α)) :
    mapLookup (m ++ l) i = some v := by
  rw [mapLookup_append, h]

theorem mapLookup_append_back {α : Type} {m : List (Nat × α)} {n : Nat} {x : α}
    {i : Nat} {v : α} (h : mapLookup (m ++ [(n, x)]) i = some v) :
    mapLookup m i = some v ∨ v = x := by
  rw [mapLookup_append] at h
  rcases hm : mapLookup m i with _ | w
  · rw [hm] at h
    right
    have h' : mapLookup [(n, x)] i = some v := h
    rw [mapLookup_cons] at h'
    by_cases hn : n = i
    · rw [if_pos hn] at h'
      exact (Option.some.inj h').symm
    · rw [if_neg hn] at h'
      exact absurd h' (by simp [mapLookup])
  · rw [hm] at h
    left
    simpa using h

theorem mapLookup_delete {α : Type} (m : List (Nat × α)) (k i : Nat) :
    mapLookup (mapDelete m k) i = if i = k then none else mapLookup m i := by
  induction m with
  | nil => by_cases hik : i = k <;> simp [mapDelete, mapLookup, hik]
  | cons p m ih =>
    by_cases hp : p.1 = k
    · have hfilter : mapDelete (p :: m) k = mapDelete m k := by
        simp [mapDelete, List.filter_cons, hp]
      rw [hfilter, ih]
      by_cases hik : i = k
      · rw [if_pos hik, if_pos hik]
      · rw [if_neg hik, if_neg hik, mapLookup_cons, if_neg (by omega : ¬ p.1 = i)]
    · have hfilter : mapDelete (p :: m) k = p :: mapDelete m k := by
        simp [mapDelete, List.filter_cons, hp]
      rw [hfilter, mapLookup_cons, mapLookup_cons, ih]
      by_cases hpi : p.1 = i
      · rw [if_pos hpi, if_pos hpi, if_neg (by omega : ¬ i = k)]
      · rw [if_neg hpi, if_neg hpi]

theorem mapUpdate_keys {α : Type} (m : List (Nat × α)) (k : Nat) (f : α → α) :
    (mapUpdate m k f).map Prod.fst = m.map Prod.fst := by
  induction m with
  | nil => rfl
  | cons p m ih =>
    by_cases hp : p.1 = k
    · simp only [mapUpdate, List.map_cons, if_pos hp] at *
      rw [ih]
    · simp only [mapUpdate, List.map_cons, if_neg hp] at *
      rw [ih]

theorem mapDelete_not_mem {α : Type} {m : List (Nat × α)} {k : Nat} {p : Nat × α}
    (h : p ∈ mapDelete m k) : p.1 ≠ k := by
  have := List.of_mem_filter h
  simpa using this

/-! Facts about the movement resolver. -/

theorem moveTowards_cases (g : GameState) (e : Entity) (t : Position) :
    moveTowards g e t = { e with position := stepPos e t } ∨
    moveTowards g e t = { e with position := t } ∨
    moveTowards g e t = { e with state := "idle", destination := none } ∨
    moveTowards g e t = e := by
  unfold moveTowards
  by_cases h1 : Real.sqrt ((t.x - e.position.x) * (t.x - e.position.x) +
      (t.y - e.position.y) * (t.y - e.position.y)) > 5
  · rw [if_pos h1]
    by_cases h2 : ¬e.isClimbing = true ∧ wallCollision g (stepPos e t)
    · rw [if_pos h2]
      by_cases h3 : e.state = "moving"
      · rw [if_pos h3]
        right; right; left; rfl
      · rw [if_neg h3]
        right; right; right; rfl
    · rw [if_neg h2]
      left; rfl
  · rw [if_neg h1]
    right; left; rfl

theorem moveTowards_hp (g : GameState) (e : Entity) (t : Position) :
    (moveTowards g e t).hp = e.hp ∧ (moveTowards g e t).type = e.type ∧
    (moveTowards g e t).playerId = e.playerId := by
  rcases moveTowards_cases g e t with h | h | h | h <;> rw [h] <;> exact ⟨rfl, rfl, rfl⟩

theorem moveTowards_state (g : GameState) (e : Entity) (t : Position) :
    (moveTowards g e t).state = e.state ∨ (moveTowards g e t).state = "idle" := by
  rcases moveTowards_cases g e t with h | h | h | h <;> rw [h]
  · left; rfl
  · left; rfl
  · right; rfl
  · left; rfl

/-! Behavior clauses that do not apply leave the state untouched. -/

theorem buildingStep_skip {g : GameState} {k : Nat} {e : Entity}
    (h : mapLookup g.entities k = some e) (hs : e.state ≠ "building") :
    buildingStep g k = g := by
  unfold buildingStep
  rw [h]
  simp [hs]

theorem gatheringStep_skip {g : GameState} {k : Nat} {e : Entity}
    (h : mapLookup g.entities k = some e) (hs : e.state ≠ "gathering") :
    gatheringStep g k = g := by
  unfold gatheringStep
  rw [h]
  simp [hs]

theorem returningStep_skip {g : GameState} {k : Nat} {e : Entity}
    (h : mapLookup g.entities k = some e) (hs : e.state ≠ "returning") :
    returningStep g k = g := by
  unfold returningStep
  rw [h]
  simp [hs]

theorem attackingStep_skip {g : GameState} {k : Nat} {e : Entity}
    (h : mapLookup g.entities k = some e) (hs : e.state ≠ "attacking") :
    attackingStep g k = g := by
  unfold attackingStep
  rw [h]
  simp [hs]

theorem productionStep_skip_none {g : GameState} {k : Nat} {e : Entity}
    (h : mapLookup g.entities k = some e) (hq : e.productionQueue = none) :
    productionStep g k = g := by
  unfold productionStep
  rw [h]
  simp [hq]

theorem productionStep_skip_empty {g : GameState} {k : Nat} {e : Entity}
    (h : mapLookup g.entities k = some e) (hq : e.productionQueue = some [])
    (hs : e.state ≠ "producing") : productionStep g k = g := by
  unfold productionStep
  rw [h]
  simp [hq, hs]

theorem movingStep_skip {g : GameState} {k : Nat} {e : Entity}
    (h : mapLookup g.entities k = some e) (hs : e.state ≠ "moving") :
    movingStep g k = g := by
  unfold movingStep
  rw [h]
  simp [hs]

/-! No behavior clause ever writes status, winner, or the player key set. -/

theorem buildingStep_meta (g : GameState) (k : Nat) :
    (buildingStep g k).status = g.status ∧ (buildingStep g k).winner = g.winner ∧
    (buildingStep g k).players.map Prod.fst = g.players.map Prod.fst := by
  simp only [buildingStep]
  repeat' split
  all_goals simp [mapUpdate_keys]

theorem gatheringStep_meta (g : GameState) (k : Nat) :
    (gatheringStep g k).status = g.status ∧ (gatheringStep g k).winner = g.winner ∧
    (gatheringStep g k).players.map Prod.fst = g.players.map Prod.fst := by
  simp only [gatheringStep]
  repeat' split
  all_goals simp [mapUpdate_keys]

theorem returningStep_meta (g : GameState) (k : Nat) :
    (returningStep g k).status = g.status ∧ (returningStep g k).winner = g.winner ∧
    (returningStep g k).players.map Prod.fst = g.players.map Prod.fst := by
  simp only [returningStep]
  repeat' split
  all_goals simp [mapUpdate_keys]

theorem attackingStep_meta (g : GameState) (k : Nat) :
    (attackingStep g k).status = g.status ∧ (attackingStep g k).winner = g.winner ∧
    (attackingStep g k).players.map Prod.fst = g.players.map Prod.fst := by
  simp only [attackingStep]
  repeat' split
  all_goals simp [mapUpdate_keys]

theorem productionStep_meta (g : GameState) (k : Nat) :
    (productionStep g k).status = g.status ∧ (productionStep g k).winner = g.winner ∧
    (productionStep g k).players.map Prod.fst = g.players.map Prod.fst := by
  simp only [productionStep]
  repeat' split
  all_goals simp [mapUpdate_keys]

theorem movingStep_meta (g : GameState) (k : Nat) :
    (movingStep g k).status = g.status ∧ (movingStep g k).winner = g.winner ∧
    (movingStep g k).players.map Prod.fst = g.players.map Prod.fst := by
  simp only [movingStep]
  repeat' split
  all_goals simp [mapUpdate_keys]

theorem behavior_meta (g : GameState) (k : Nat) :
    (handleEntityBehavior g k).status = g.status ∧
    (handleEntityBehavior g k).winner = g.winner ∧
    (handleEntityBehavior g k).players.map Prod.fst = g.players.map Prod.fst := by
  unfold handleEntityBehavior
  obtain ⟨b1, b2, b3⟩ := buildingStep_meta g k
  obtain ⟨g1, g2, g3⟩ := gatheringStep_meta (buildingStep g k) k
  obtain ⟨r1, r2, r3⟩ := returningStep_meta (gatheringStep (buildingStep g k) k) k
  obtain ⟨a1, a2, a3⟩ :=
    attackingStep_meta (returningStep (gatheringStep (buildingStep g k) k) k) k
  obtain ⟨p1, p2, p3⟩ :=
    productionStep_meta (attackingStep (returningStep (gatheringStep (buildingStep g k) k) k) k) k
  obtain ⟨m1, m2, m3⟩ :=
    movingStep_meta
      (productionStep (attackingStep (returningStep (gatheringStep (buildingStep g k) k) k) k) k) k
  refine ⟨?_, ?_, ?_⟩
  · rw [m1, p1, a1, r1, g1, b1]
  · rw [m2, p2, a2, r2, g2, b2]
  · rw [m3, p3, a3, r3, g3, b3]

/-! Static facts about the stat tables. -/

theorem BUILDING_STATS_hp_pos {t : String} {b : BuildingStats}
    (h : BUILDING_STATS t = some b) : 0 < b.hp := by
  unfold BUILDING_STATS at h
  split at h <;> cases h <;> norm_num

theorem UNIT_STATS_hp_pos {t : String} {s : UnitStats}
    (h : UNIT_STATS t = some s) : 0 < s.hp := by
  unfold UNIT_STATS at h
  split at h <;> cases h <;> norm_num

theorem UNIT_STATS_attack_nonneg {t : String} {s : UnitStats}
    (h : UNIT_STATS t = some s) : 0 ≤ s.attack := by
  unfold UNIT_STATS at h
  split at h <;> cases h <;> norm_num

/-! Evolution of single lookups under the map writes the behavior
clauses perform. -/

theorem mapLookup_update_ne {α : Type} {m : List (Nat × α)} {k : Nat} {f : α → α}
    {i : Nat} (hik : i ≠ k) : mapLookup (mapUpdate m k f) i = mapLookup m i := by
  rw [mapLookup_update, if_neg hik]

theorem lookup_update_evol {m : List (Nat × Entity)} {k : Nat} {f : Entity → Entity}
    {e : Entity} {i : Nat} {v : Entity}
    (hk : mapLookup m k = some e)
    (hf : (f e).hp = e.hp ∧ (f e).type = e.type ∧ (f e).state ≠ "attacking")
    (hv : mapLookup (mapUpdate m k f) i = some v) :
    mapLookup m i = some v ∨
      ∃ v0, mapLookup m i = some v0 ∧ v.hp = v0.hp ∧ v.type = v0.type ∧
        v.state ≠ "attacking" := by
  rw [mapLookup_update] at hv
  by_cases hik : i = k
  · rw [if_pos hik, hk] at hv
    have hfe : f e = v := by simpa using hv
    right
    exact ⟨e, hik ▸ hk, by rw [← hfe]; exact hf.1, by rw [← hfe]; exact hf.2.1,
      by rw [← hfe]; exact hf.2.2⟩
  · rw [if_neg hik] at hv
    exact Or.inl hv

theorem lookup_update_append_evol {m : List (Nat × Entity)} {k : Nat}
    {f : Entity → Entity} {e : Entity} {n : Nat} {x : Entity} {i : Nat} {v : Entity}
    (hk : mapLookup m k = some e)
    (hf : (f e).hp = e.hp ∧ (f e).type = e.type ∧ (f e).state ≠ "attacking")
    (hx : x.state ≠ "attacking" ∧ 0 < x.hp)
    (hv : mapLookup (mapUpdate m k f ++ [(n, x)]) i = some v) :
    mapLookup m i = some v ∨
      (∃ v0, mapLookup m i = some v0 ∧ v.hp = v0.hp ∧ v.type = v0.type ∧
        v.state ≠ "attacking") ∨
      (v.state ≠ "attacking" ∧ 0 < v.hp) := by
  rcases mapLookup_append_back hv with h | rfl
  · rcases lookup_update_evol hk hf h with h | h
    · exact Or.inl h
    · exact Or.inr (Or.inl h)
  · exact Or.inr (Or.inr hx)

theorem lookup_append_update_evol {m : List (Nat × Entity)} {k : Nat}
    {f : Entity → Entity} {e : Entity} {n : Nat} {x : Entity} {i : Nat} {v : Entity}
    (hk : mapLookup m k = some e)
    (hf : (f e).hp = e.hp ∧ (f e).type = e.type ∧ (f e).state ≠ "attacking")
    (hx : x.state ≠ "attacking" ∧ 0 < x.hp)
    (hv : mapLookup (mapUpdate (m ++ [(n, x)]) k f) i = some v) :
    mapLookup m i = some v ∨
      (∃ v0, mapLookup m i = some v0 ∧ v.hp = v0.hp ∧ v.type = v0.type ∧
        v.state ≠ "attacking") ∨
      (v.state ≠ "attacking" ∧ 0 < v.hp) := by
  rw [mapLookup_update] at hv
  by_cases hik : i = k
  · rw [if_pos hik, mapLookup_append_left hk] at hv
    have hfe : f e = v := by simpa using hv
    right; left
    exact ⟨e, hik ▸ hk, by rw [← hfe]; exact hf.1, by rw [← hfe]; exact hf.2.1,
      by rw [← hfe]; exact hf.2.2⟩
  · rw [if_neg hik] at hv
    rcases mapLookup_append_back hv with h | rfl
    · exact Or.inl h
    · exact Or.inr (Or.inr hx)

theorem entityEvol_refl (g : GameState) : entityEvol g g := fun _ _ hv => Or.inl hv

theorem entityEvol_trans {g1 g2 g3 : GameState} (h12 : entityEvol g1 g2)
    (h23 : entityEvol g2 g3) : entityEvol g1 g3 := by
  intro i v hv
  rcases h23 i v hv with h | ⟨v0, hl, hhp, hty, hst⟩ | h
  · exact h12 i v h
  · rcases h12 i v0 hl with h | ⟨w, hw, hhp2, hty2, _⟩ | ⟨_, hp3⟩
    · exact Or.inr (Or.inl ⟨v0, h, hhp, hty, hst⟩)
    · exact Or.inr (Or.inl ⟨w, hw, hhp.trans hhp2, hty.trans hty2, hst⟩)
    · exact Or.inr (Or.inr ⟨hst, by rw [hhp]; exact hp3⟩)
  · exact Or.inr (Or.inr h)

/-! Behavior clauses never disturb the entry of a different key that is
already present. -/

theorem buildingStep_other {g : GameState} {k i : Nat} {v : Entity} (hik : i ≠ k)
    (h : mapLookup g.entities i = some v) :
    mapLookup (buildingStep g k).entities i = some v := by
  simp only [buildingStep]
  repeat' split
  all_goals simp [mapLookup_update, hik, mapLookup_append, h]

theorem gatheringStep_other {g : GameState} {k i : Nat} {v : Entity} (hik : i ≠ k)
    (h : mapLookup g.entities i = some v) :
    mapLookup (gatheringStep g k).entities i = some v := by
  simp only [gatheringStep]
  repeat' split
  all_goals simp [mapLookup_update, hik, mapLookup_append, h]

theorem returningStep_other {g : GameState} {k i : Nat} {v : Entity} (hik : i ≠ k)
    (h : mapLookup g.entities i = some v) :
    mapLookup (returningStep g k).entities i = some v := by
  simp only [returningStep]
  repeat' split
  all_goals simp [mapLookup_update, hik, mapLookup_append, h]

theorem productionStep_other {g : GameState} {k i : Nat} {v : Entity} (hik : i ≠ k)
    (h : mapLookup g.entities i = some v) :
    mapLookup (productionStep g k).entities i = some v := by
  simp only [productionStep]
  repeat' split
  all_goals simp [mapLookup_update, hik, mapLookup_append, h]

theorem movingStep_other {g : GameState} {k i : Nat} {v : Entity} (hik : i ≠ k)
    (h : mapLookup g.entities i = some v) :
    mapLookup (movingStep g k).entities i = some v := by
  simp only [movingStep]
  repeat' split
  all_goals simp [mapLookup_update, hik, mapLookup_append, h]

theorem attackingStep_id {g : GameState} {k : Nat}
    (hA : ∀ e, mapLookup g.entities k = some e → e.state ≠ "attacking") :
    attackingStep g k = g := by
  rcases h : mapLookup g.entities k with _ | e
  · unfold attackingStep
    rw [h]
  · exact attackingStep_skip h (hA e h)

theorem buildingStep_evol (g : GameState) (k : Nat) : entityEvol g (buildingStep g k) := by
  intro i v hv
  simp only [buildingStep] at hv
  repeat' split at hv
  all_goals try exact Or.inl hv
  · rename_i x1 e heq hst x2 tp htp hd
    have hf : (moveTowards g e tp).hp = e.hp ∧ (moveTowards g e tp).type = e.type ∧
        (moveTowards g e tp).state ≠ "attacking" := by
      refine ⟨(moveTowards_hp g e tp).1, (moveTowards_hp g e tp).2.1, ?_⟩
      rcases moveTowards_state g e tp with h | h <;> rw [h]
      · rw [hst]
        simp
      · simp
    replace hv : mapLookup (mapUpdate g.entities k fun e' => moveTowards g e' tp) i =
        some v := hv
    rcases lookup_update_evol heq hf hv with h | h
    · exact Or.inl h
    · exact Or.inr (Or.inl h)
  · rename_i x3 e heq hst x2 tp htp hd x1 bt hbt x0 bs hbs
    have hx : (freshEntity g.nextId e.playerId bt tp bs.hp).state ≠ "attacking" ∧
        0 < (freshEntity g.nextId e.playerId bt tp bs.hp).hp := by
      constructor
      · simp [freshEntity]
      · simpa [freshEntity] using BUILDING_STATS_hp_pos hbs
    replace hv : mapLookup
        (mapUpdate g.entities k (fun e' =>
            { e' with state := "idle", targetPosition := none, buildType := none }) ++
          [(g.nextId, freshEntity g.nextId e.playerId bt tp bs.hp)]) i = some v := hv
    rcases lookup_update_append_evol heq ⟨rfl, rfl, by simp⟩ hx hv with h | h | h
    · exact Or.inl h
    · exact Or.inr (Or.inl h)
    · exact Or.inr (Or.inr h)

theorem gatheringStep_evol (g : GameState) (k : Nat) : entityEvol g (gatheringStep g k) := by
  intro i v hv
  simp only [gatheringStep] at hv
  repeat' split at hv
  all_goals try exact Or.inl hv
  all_goals dsimp only at hv
  · rename_i xo e heqk hstate xt t htid xr r hres hdist
    rcases lookup_update_evol heqk ⟨rfl, rfl, by simp⟩ hv with h | h
    · exact Or.inl h
    · exact Or.inr (Or.inl h)
  · rename_i xo e heqk hstate xt t htid xr r hres hdist
    have hf : (moveTowards g e r.position).hp = e.hp ∧
        (moveTowards g e r.position).type = e.type ∧
        (moveTowards g e r.position).state ≠ "attacking" := by
      refine ⟨(moveTowards_hp g e r.position).1, (moveTowards_hp g e r.position).2.1, ?_⟩
      rcases moveTowards_state g e r.position with h | h <;> rw [h]
      · rw [hstate]
        simp
      · simp
    rcases lookup_update_evol heqk hf hv with h | h
    · exact Or.inl h
    · exact Or.inr (Or.inl h)
  · rename_i xo e heqk hstate xt t htid xr hres
    rcases lookup_update_evol heqk ⟨rfl, rfl, by simp⟩ hv with h | h
    · exact Or.inl h
    · exact Or.inr (Or.inl h)

theorem returningStep_evol (g : GameState) (k : Nat) : entityEvol g (returningStep g k) := by
  intro i v hv
  unfold returningStep at hv
  rcases hks : mapLookup g.entities k with _ | e
  · rw [hks] at hv
    exact Or.inl hv
  · simp only [hks] at hv
    by_cases hst : e.state = "returning"
    · rw [if_pos hst] at hv
      rcases hh : g.entities.find?
          (fun p => p.2.type == "hub" && p.2.playerId == e.playerId) with _ | hubPair
      · rw [hh] at hv
        exact Or.inl hv
      · simp only [hh] at hv
        by_cases hd : distance e.position hubPair.2.position < 50
        · rw [if_pos hd] at hv
          replace hv : mapLookup
              (mapUpdate g.entities k (fun e' => { e' with state := "gathering" })) i =
              some v := hv
          rcases lookup_update_evol hks ⟨rfl, rfl, by simp⟩ hv with h | h
          · exact Or.inl h
          · exact Or.inr (Or.inl h)
        · rw [if_neg hd] at hv
          replace hv : mapLookup
              (mapUpdate g.entities k (fun e' => moveTowards g e' hubPair.2.position)) i =
              some v := hv
          have hf : (moveTowards g e hubPair.2.position).hp = e.hp ∧
              (moveTowards g e hubPair.2.position).type = e.type ∧
              (moveTowards g e hubPair.2.position).state ≠ "attacking" := by
            refine ⟨(moveTowards_hp g e hubPair.2.position).1,
              (moveTowards_hp g e hubPair.2.position).2.1, ?_⟩
            rcases moveTowards_state g e hubPair.2.position with h | h <;> rw [h]
            · rw [hst]
              simp
            · simp
          rcases lookup_update_evol hks hf hv with h | h
          · exact Or.inl h
          · exact Or.inr (Or.inl h)
    · rw [if_neg hst] at hv
      exact Or.inl hv

theorem movingStep_evol (g : GameState) (k : Nat) : entityEvol g (movingStep g k) := by
  intro i v hv
  unfold movingStep at hv
  rcases hks : mapLookup g.entities k with _ | e
  · rw [hks] at hv
    exact Or.inl hv
  · simp only [hks] at hv
    by_cases hst : e.state = "moving" ∧ e.targetId = none
    · rw [if_pos hst] at hv
      rcases hdst : e.destination with _ | dest
      · rw [hdst] at hv
        exact Or.inl hv
      · simp only [hdst] at hv
        by_cases hd : distance e.position dest < 5
        · rw [if_pos hd] at hv
          replace hv : mapLookup
              (mapUpdate g.entities k (fun e' =>
                { e' with state := "idle", destination := none })) i = some v := hv
          rcases lookup_update_evol hks ⟨rfl, rfl, by simp⟩ hv with h | h
          · exact Or.inl h
          · exact Or.inr (Or.inl h)
        · rw [if_neg hd] at hv
          replace hv : mapLookup
              (mapUpdate g.entities k (fun e' => moveTowards g e' dest)) i = some v := hv
          have hf : (moveTowards g e dest).hp = e.hp ∧ (moveTowards g e dest).type = e.type ∧
              (moveTowards g e dest).state ≠ "attacking" := by
            refine ⟨(moveTowards_hp g e dest).1, (moveTowards_hp g e dest).2.1, ?_⟩
            rcases moveTowards_state g e dest with h | h <;> rw [h]
            · rw [hst.1]
              simp
            · simp
          rcases lookup_update_evol hks hf hv with h | h
          · exact Or.inl h
          · exact Or.inr (Or.inl h)
    · rw [if_neg hst] at hv
      exact Or.inl hv

theorem productionStep_evol (g : GameState) (k : Nat)
    (hA : ∀ e0, mapLookup g.entities k = some e0 → e0.state ≠ "attacking") :
    entityEvol g (productionStep g k) := by
  intro i v hv
  unfold productionStep at hv
  rcases hks : mapLookup g.entities k with _ | e
  · rw [hks] at hv
    exact Or.inl hv
  · have hAe := hA e hks
    simp only [hks] at hv
    rcases hq : e.productionQueue with _ | q
    · simp only [hq] at hv
      exact Or.inl hv
    · simp only [hq] at hv
      by_cases hcond : e.state = "producing" ∨ q ≠ []
      · rw [if_pos hcond] at hv
        have hst0 : (if e.productionTimer.getD 0 = 0 then "producing" else e.state) ≠
            "attacking" := by
          split_ifs <;> simp [hAe]
        by_cases ht : (if e.productionTimer.getD 0 = 0 then
            (q.head?.bind PRODUCTION_TIME).getD 5000 else e.productionTimer.getD 0) - 100 ≤ 0
        · rw [if_pos ht] at hv
          have hst1 : (if q.tail = [] then "idle"
              else if e.productionTimer.getD 0 = 0 then "producing" else e.state) ≠
              "attacking" := by
            split_ifs <;> simp [hAe]
          rcases hhead : q.head? with _ | item
          · simp only [hhead] at hv
            replace hv : mapLookup (mapUpdate g.entities k (fun e' =>
                { e' with productionQueue := some q.tail, productionTimer := none,
                          state := if q.tail = [] then "idle"
                            else if e.productionTimer.getD 0 = 0 then "producing"
                            else e.state })) i = some v := hv
            rcases lookup_update_evol hks ⟨rfl, rfl, hst1⟩ hv with h | h
            · exact Or.inl h
            · exact Or.inr (Or.inl h)
          · simp only [hhead] at hv
            by_cases hiron : item = "iron_ingot"
            · rw [if_pos hiron] at hv
              replace hv : mapLookup (mapUpdate g.entities k (fun e' =>
                  { e' with productionQueue := some q.tail, productionTimer := none,
                            state := if q.tail = [] then "idle"
                              else if e.productionTimer.getD 0 = 0 then "producing"
                              else e.state })) i = some v := hv
              rcases lookup_update_evol hks ⟨rfl, rfl, hst1⟩ hv with h | h
              · exact Or.inl h
              · exact Or.inr (Or.inl h)
            · rw [if_neg hiron] at hv
              by_cases hlad : item = "ladder"
              · rw [if_pos hlad] at hv
                replace hv : mapLookup (mapUpdate g.entities k (fun e' =>
                    { e' with productionQueue := some q.tail, productionTimer := none,
                              state := if q.tail = [] then "idle"
                                else if e.productionTimer.getD 0 = 0 then "producing"
                                else e.state })) i = some v := hv
                rcases lookup_update_evol hks ⟨rfl, rfl, hst1⟩ hv with h | h
                · exact Or.inl h
                · exact Or.inr (Or.inl h)
              · rw [if_neg hlad] at hv
                rcases hus : UNIT_STATS item with _ | us
                · simp only [hus] at hv
                  replace hv : mapLookup (mapUpdate g.entities k (fun e' =>
                      { e' with productionQueue := some q.tail, productionTimer := none,
                                state := if q.tail = [] then "idle"
                                  else if e.productionTimer.getD 0 = 0 then "producing"
                                  else e.state })) i = some v := hv
                  rcases lookup_update_evol hks ⟨rfl, rfl, hst1⟩ hv with h | h
                  · exact Or.inl h
                  · exact Or.inr (Or.inl h)
                · simp only [hus] at hv
                  replace hv : mapLookup (mapUpdate (g.entities ++
                      [(g.nextId, freshEntity g.nextId e.playerId item
                        ⟨e.position.x + 80, e.position.y + 80⟩ us.hp)]) k (fun e' =>
                      { e' with productionQueue := some q.tail, productionTimer := none,
                                state := if q.tail = [] then "idle"
                                  else if e.productionTimer.getD 0 = 0 then "producing"
                                  else e.state })) i = some v := hv
                  have hx : (freshEntity g.nextId e.playerId item
                      ⟨e.position.x + 80, e.position.y + 80⟩ us.hp).state ≠ "attacking" ∧
                      0 < (freshEntity g.nextId e.playerId item
                        ⟨e.position.x + 80, e.position.y + 80⟩ us.hp).hp := by
                    constructor
                    · simp [freshEntity]
                    · simpa [freshEntity] using UNIT_STATS_hp_pos hus
                  rcases lookup_append_update_evol hks ⟨rfl, rfl, hst1⟩ hx hv with h | h | h
                  · exact Or.inl h
                  · exact Or.inr (Or.inl h)
                  · exact Or.inr (Or.inr h)
        · rw [if_neg ht] at hv
          replace hv : mapLookup (mapUpdate g.entities k (fun e' =>
              { e' with productionTimer := some ((if e.productionTimer.getD 0 = 0 then
                  (q.head?.bind PRODUCTION_TIME).getD 5000
                  else e.productionTimer.getD 0) - 100),
                        state := if e.productionTimer.getD 0 = 0 then "producing"
                          else e.state })) i = some v := hv
          rcases lookup_update_evol hks ⟨rfl, rfl, hst0⟩ hv with h | h
          · exact Or.inl h
          · exact Or.inr (Or.inl h)
      · rw [if_neg hcond] at hv
        exact Or.inl hv

theorem evol_not_attacking {g g' : GameState} {k : Nat} (hE : entityEvol g g')
    (hA : ∀ e, mapLookup g.entities k = some e → e.state ≠ "attacking") :
    ∀ e, mapLookup g'.entities k = some e → e.state ≠ "attacking" := by
  intro e he
  rcases hE k e he with h | ⟨_, _, _, _, hst⟩ | ⟨hst, _⟩
  · exact hA e h
  · exact hst
  · exact hst

theorem behavior_evol (g : GameState) (k : Nat)
    (hA : ∀ e, mapLookup g.entities k = some e → e.state ≠ "attacking") :
    entityEvol g (handleEntityBehavior g k) := by
  unfold handleEntityBehavior
  have e1 := buildingStep_evol g k
  have e2 := gatheringStep_evol (buildingStep g k) k
  have e3 := returningStep_evol (gatheringStep (buildingStep g k) k) k
  have hE3 : entityEvol g (returningStep (gatheringStep (buildingStep g k) k) k) :=
    entityEvol_trans (entityEvol_trans e1 e2) e3
  have hA3 := evol_not_attacking hE3 hA
  rw [attackingStep_id hA3]
  have e5 := productionStep_evol (returningStep (gatheringStep (buildingStep g k) k) k) k hA3
  have hE5 : entityEvol g
      (productionStep (returningStep (gatheringStep (buildingStep g k) k) k) k) :=
    entityEvol_trans hE3 e5
  have e6 := movingStep_evol
    (productionStep (returningStep (gatheringStep (buildingStep g k) k) k) k) k
  exact entityEvol_trans hE5 e6

theorem behavior_other {g : GameState} {k i : Nat} {v : Entity} (hik : i ≠ k)
    (hA : ∀ e, mapLookup g.entities k = some e → e.state ≠ "attacking")
    (h : mapLookup g.entities i = some v) :
    mapLookup (handleEntityBehavior g k).entities i = some v := by
  unfold handleEntityBehavior
  have e1 := buildingStep_evol g k
  have e2 := gatheringStep_evol (buildingStep g k) k
  have e3 := returningStep_evol (gatheringStep (buildingStep g k) k) k
  have hA3 := evol_not_attacking (entityEvol_trans (entityEvol_trans e1 e2) e3) hA
  rw [attackingStep_id hA3]
  exact movingStep_other hik (productionStep_other hik
    (returningStep_other hik (gatheringStep_other hik (buildingStep_other hik h))))

theorem tickStep_pres (g : GameState) (j : Nat)
    (Hj : ∀ e, mapLookup g.entities j = some e →
      e.state ≠ "attacking" ∧ ¬(e.hp ≤ 0 ∧ e.type = "hub")) :
    (tickStep g j).status = g.status ∧
    (tickStep g j).winner = g.winner ∧
    (tickStep g j).players.map Prod.fst = g.players.map Prod.fst ∧
    (∀ i v, i ≠ j → mapLookup g.entities i = some v →
      mapLookup (tickStep g j).entities i = some v) ∧
    entityEvol g (tickStep g j) := by
  rcases hks : mapLookup g.entities j with _ | e
  · unfold tickStep
    rw [hks]
    exact ⟨rfl, rfl, rfl, fun i v _ h => h, entityEvol_refl g⟩
  · by_cases hdead : e.hp ≤ 0
    · have hnh : ¬ e.type = "hub" := fun hh => (Hj e hks).2 ⟨hdead, hh⟩
      have hstep : tickStep g j = { g with entities := mapDelete g.entities j } := by
        unfold tickStep
        rw [hks]
        simp only [if_pos hdead, if_neg hnh]
      rw [hstep]
      refine ⟨rfl, rfl, rfl, ?_, ?_⟩
      · intro i v hij h
        have : mapLookup (mapDelete g.entities j) i = some v := by
          rw [mapLookup_delete, if_neg hij, h]
        exact this
      · intro i v hv
        replace hv : mapLookup (mapDelete g.entities j) i = some v := hv
        rw [mapLookup_delete] at hv
        by_cases hij : i = j
        · rw [if_pos hij] at hv
          cases hv
        · rw [if_neg hij] at hv
          exact Or.inl hv
    · have hstep : tickStep g j = handleEntityBehavior g j := by
        unfold tickStep
        rw [hks]
        simp only [if_neg hdead]
      rw [hstep]
      obtain ⟨m1, m2, m3⟩ := behavior_meta g j
      have hA : ∀ e0, mapLookup g.entities j = some e0 → e0.state ≠ "attacking" := by
        intro e0 he0
        rw [hks] at he0
        cases he0
        exact (Hj e hks).1
      exact ⟨m1, m2, m3, fun i v hij h => behavior_other hij hA h, behavior_evol g j hA⟩

theorem tickFold (l : List Nat) (g : GameState)
    (H : ∀ j ∈ l, ∀ e, mapLookup g.entities j = some e →
      e.state ≠ "attacking" ∧ ¬(e.hp ≤ 0 ∧ e.type = "hub")) :
    (l.foldl tickStep g).status = g.status ∧
    (l.foldl tickStep g).winner = g.winner ∧
    (l.foldl tickStep g).players.map Prod.fst = g.players.map Prod.fst ∧
    (∀ i v, i ∉ l → mapLookup g.entities i = some v →
      mapLookup (l.foldl tickStep g).entities i = some v) ∧
    entityEvol g (l.foldl tickStep g) := by
  induction l generalizing g with
  | nil => exact ⟨rfl, rfl, rfl, fun i v _ h => h, entityEvol_refl g⟩
  | cons j t ih =>
    have Hj := H j (List.mem_cons_self j t)
    obtain ⟨s1, w1, p1, f1, e1⟩ := tickStep_pres g j Hj
    have Ht : ∀ j' ∈ t, ∀ e, mapLookup (tickStep g j).entities j' = some e →
        e.state ≠ "attacking" ∧ ¬(e.hp ≤ 0 ∧ e.type = "hub") := by
      intro j' hj' e he
      rcases e1 j' e he with h | ⟨v0, h0, hhp, hty, hst⟩ | ⟨hst, hp0⟩
      · exact H j' (List.mem_cons_of_mem _ hj') e h
      · refine ⟨hst, ?_⟩
        rintro ⟨hd, hh⟩
        rw [hhp] at hd
        rw [hty] at hh
        exact (H j' (List.mem_cons_of_mem _ hj') v0 h0).2 ⟨hd, hh⟩
      · refine ⟨hst, ?_⟩
        rintro ⟨hd, _⟩
        linarith
    obtain ⟨s2, w2, p2, f2, e2⟩ := ih (tickStep g j) Ht
    rw [List.foldl_cons]
    refine ⟨?_, ?_, ?_, ?_, ?_⟩
    · rw [s2, s1]
    · rw [w2, w1]
    · rw [p2, p1]
    · intro i v hi h
      rw [List.mem_cons] at hi
      push_neg at hi
      exact f2 i v hi.2 (f1 i v hi.1 h)
    · exact entityEvol_trans e1 e2

theorem tick_not_playing {g : GameState} (h : g.status ≠ "playing") :
    tick g = (g, false) := by
  unfold tick
  rw [if_neg h]

theorem mapLookup_mem_keys {α : Type} {m : List (Nat × α)} {k : Nat} {v : α}
    (h : mapLookup m k = some v) : k ∈ m.map Prod.fst := by
  unfold mapLookup at h
  rcases hf : m.find? (fun p => p.1 == k) with _ | pr
  · rw [hf] at h
    cases h
  · have hmem := List.mem_of_find?_eq_some hf
    have hpred := List.find?_some hf
    simp only [beq_iff_eq] at hpred
    exact List.mem_map.mpr ⟨pr, hmem, hpred⟩

theorem mapLookup_singleton {α : Type} {n : Nat} {x : α} {i : Nat} {v : α}
    (h : mapLookup [(n, x)] i = some v) : i = n ∧ v = x := by
  rw [mapLookup_cons] at h
  by_cases hn : n = i
  · rw [if_pos hn] at h
    exact ⟨hn.symm, (Option.some.inj h).symm⟩
  · rw [if_neg hn] at h
    exact absurd h (by simp [mapLookup])

/-- C1 (counterexample): with both hubs already destroyed at tick entry,
the walk encounters player 1's dead hub (owner 1) and yet the tick
finishes with winner = some 1, not the other player's id 2 — the later
dead-hub encounter in the same walk overwrote the winner. -/
theorem C1_counterexample :
    mapLookup exC1b.entities 10 = some exDeadHub ∧ exDeadHub.type = "hub" ∧
    exDeadHub.hp ≤ 0 ∧ exDeadHub.playerId = 1 ∧
    (tick exC1b).1.status = "ended" ∧ (tick exC1b).1.winner = some 1 ∧
    (tick exC1b).1.winner ≠ some 2 := by
  have hstep1 : tickStep exC1b 10 = exC1bMid := by
    unfold tickStep
    simp only [show mapLookup exC1b.entities 10 = some exDeadHub from rfl]
    rw [if_pos (show exDeadHub.hp ≤ 0 from le_refl 0)]
    rw [if_pos (show exDeadHub.type = "hub" from rfl)]
    rfl
  have hstep2 : tickStep exC1bMid 11 = exC1bEnd := by
    unfold tickStep
    simp only [show mapLookup exC1bMid.entities 11 = some exDeadHub2 from rfl]
    rw [if_pos (show exDeadHub2.hp ≤ 0 from le_refl 0)]
    rw [if_pos (show exDeadHub2.type = "hub" from rfl)]
    rfl
  have htick : tick exC1b = (exC1bEnd, true) := by
    unfold tick
    rw [if_pos (show exC1b.status = "playing" from rfl)]
    show (List.foldl tickStep exC1b [10, 11], true) = _
    rw [show List.foldl tickStep exC1b [10, 11] = tickStep (tickStep exC1b 10) 11 from rfl]
    rw [hstep1, hstep2]
  refine ⟨rfl, rfl, le_refl 0, rfl, ?_, ?_, ?_⟩
  · rw [htick]
    rfl
  · rw [htick]
    rfl
  · rw [htick]
    simp [exC1bEnd]

/-- C1 (amended): the moment the tick walk encounters a hub with hp ≤ 0
it deletes it, sets status to 'ended' and winner to the first player id
different from that hub's owner (in a two-player game: the other
player); a later dead-hub encounter in the same walk overwrites winner;
and a tick on an ended state returns it untouched with no snapshot. -/
theorem C1_dead_hub_encounter (g : GameState) (k : Nat) (e : Entity) (p q : Nat)
    (hplayers : g.players.map Prod.fst = [p, q])
    (hpq : p ≠ q)
    (hk : mapLookup g.entities k = some e)
    (hhub : e.type = "hub")
    (hdead : e.hp ≤ 0)
    (howner : e.playerId = p ∨ e.playerId = q) :
    ((tickStep g k).status = "ended" ∧
      (tickStep g k).winner = some (if e.playerId = p then q else p) ∧
      mapLookup (tickStep g k).entities k = none) ∧
    (∀ g' : GameState, g'.status = "ended" → tick g' = (g', false)) := by
  have heval : tickStep g k = { g with
      winner := (g.players.map Prod.fst).find? (fun pid => pid != e.playerId),
      status := "ended",
      entities := mapDelete g.entities k } := by
    unfold tickStep
    simp only [hk]
    rw [if_pos hdead, if_pos hhub]
  refine ⟨⟨?_, ?_, ?_⟩, ?_⟩
  · rw [heval]
  · rw [heval]
    show (g.players.map Prod.fst).find? (fun pid => pid != e.playerId) =
      some (if e.playerId = p then q else p)
    rw [hplayers]
    rcases howner with h | h
    · rw [h, List.find?_cons_of_neg _ (by simp),
        List.find?_cons_of_pos _ (by simpa using Ne.symm hpq)]
      simp
    · rw [h, List.find?_cons_of_pos _ (by simpa using hpq)]
      simp [Ne.symm hpq]
  · rw [heval]
    show mapLookup (mapDelete g.entities k) k = none
    rw [mapLookup_delete]
    simp
  · intro g' hst
    apply tick_not_playing
    rw [hst]
    simp

/-- C1 encounter witness at the concrete two-player state exC1: pruning
the dead hub ends the game with winner 2, and ticking the resulting
ended state is a no-op without a snapshot. -/
theorem C1_dead_hub_encounter_witness :
    ((tickStep exC1 10).status = "ended" ∧
      (tickStep exC1 10).winner = some (if exDeadHub.playerId = 1 then 2 else 1) ∧
      mapLookup (tickStep exC1 10).entities 10 = none) ∧
    tick (tickStep exC1 10) = (tickStep exC1 10, false) :=
  ⟨(C1_dead_hub_encounter exC1 10 exDeadHub 1 2 rfl (by decide) rfl rfl (le_refl 0)
      (Or.inl rfl)).1,
    (C1_dead_hub_encounter exC1 10 exDeadHub 1 2 rfl (by decide) rfl rfl (le_refl 0)
      (Or.inl rfl)).2 (tickStep exC1 10)
      (C1_dead_hub_encounter exC1 10 exDeadHub 1 2 rfl (by decide) rfl rfl (le_refl 0)
        (Or.inl rfl)).1.1⟩

/-! Direct evaluation helpers used by the concrete test states. -/

theorem sqrt_eval {a b : ℝ} (hb : 0 ≤ b) (h : b * b = a) : Real.sqrt a = b := by
  rw [← h]
  exact Real.sqrt_mul_self hb

theorem distance_eval {p1 p2 : Position} {r : ℝ} (hr : 0 ≤ r)
    (h : (p1.x - p2.x) ^ 2 + (p1.y - p2.y) ^ 2 = r * r) : distance p1 p2 = r := by
  unfold distance
  rw [h]
  exact Real.sqrt_mul_self hr

theorem tickStep_alive {g : GameState} {k : Nat} {e : Entity}
    (h : mapLookup g.entities k = some e) (hhp : ¬ e.hp ≤ 0) :
    tickStep g k = handleEntityBehavior g k := by
  unfold tickStep
  rw [h]
  simp only [if_neg hhp]

theorem behavior_inert {g : GameState} {k : Nat} {e : Entity}
    (h : mapLookup g.entities k = some e)
    (hs1 : e.state ≠ "building") (hs2 : e.state ≠ "gathering")
    (hs3 : e.state ≠ "returning") (hs4 : e.state ≠ "attacking")
    (hs5 : e.state ≠ "moving") (hq : e.productionQueue = none) :
    handleEntityBehavior g k = g := by
  unfold handleEntityBehavior
  rw [buildingStep_skip h hs1, gatheringStep_skip h hs2, returningStep_skip h hs3,
    attackingStep_skip h hs4, productionStep_skip_none h hq, movingStep_skip h hs5]

theorem movingStep_arrive {g : GameState} {k : Nat} {e : Entity} {d : Position}
    (h : mapLookup g.entities k = some e) (hs : e.state = "moving")
    (ht : e.targetId = none) (hd : e.destination = some d)
    (hdist : distance e.position d < 5) :
    movingStep g k = { g with entities := mapUpdate g.entities k (fun e' =>
      { e' with state := "idle", destination := none }) } := by
  unfold movingStep
  simp only [h]
  rw [if_pos (⟨hs, ht⟩ : e.state = "moving" ∧ e.targetId = none)]
  simp only [hd]
  rw [if_pos hdist]

/-- The source's arrival behavior for a plain mover: go idle, drop the
destination, keep the position. -/
theorem behavior_moving_arrive {g : GameState} {k : Nat} {e : Entity} {d : Position}
    (h : mapLookup g.entities k = some e) (hs : e.state = "moving")
    (ht : e.targetId = none) (hd : e.destination = some d)
    (hq : e.productionQueue = none)
    (hdist : distance e.position d < 5) :
    handleEntityBehavior g k = { g with entities := mapUpdate g.entities k (fun e' =>
      { e' with state := "idle", destination := none }) } := by
  unfold handleEntityBehavior
  rw [buildingStep_skip h (by rw [hs]; simp), gatheringStep_skip h (by rw [hs]; simp),
    returningStep_skip h (by rw [hs]; simp), attackingStep_skip h (by rw [hs]; simp),
    productionStep_skip_none h hq, movingStep_arrive h hs ht hd hdist]

/-- C5 (amended): when the tick's per-entity pass visits an entity whose
hp is ≤ 0, that entity is removed from entities at that moment. -/
theorem C5_prune_on_visit (g : GameState) (k : Nat) (e : Entity)
    (h : mapLookup g.entities k = some e) (hdead : e.hp ≤ 0) :
    mapLookup (tickStep g k).entities k = none := by
  unfold tickStep
  simp only [h]
  rw [if_pos hdead]
  by_cases hh : e.type = "hub"
  · rw [if_pos hh]
    show mapLookup (mapDelete g.entities k) k = none
    rw [mapLookup_delete]
    simp
  · rw [if_neg hh]
    show mapLookup (mapDelete g.entities k) k = none
    rw [mapLookup_delete]
    simp

/-- C5 amended-claim witness at the concrete state exC1. -/
theorem C5_prune_on_visit_witness :
    mapLookup (tickStep exC1 10).entities 10 = none :=
  C5_prune_on_visit exC1 10 exDeadHub rfl (le_refl 0)

/-- C5 counterexample: in exC5 the attacker (iterated second) drives the
already-visited entity 1 to hp = -1, and the tick still leaves entity 1
in entities — with hp ≤ 0 — in the state it snapshots. -/
theorem C5_counterexample :
    (tick exC5).1.status = "playing" ∧ (tick exC5).2 = true ∧
    mapLookup (tick exC5).1.entities 1 = some { exVictim with hp := -1 } ∧
    ({ exVictim with hp := -1 } : Entity).hp ≤ 0 := by
  have hl1 : mapLookup exC5.entities 1 = some exVictim := rfl
  have hl2 : mapLookup exC5.entities 2 = some exAttacker := rfl
  have hstep1 : tickStep exC5 1 = exC5 := by
    rw [tickStep_alive hl1 (by norm_num [exVictim])]
    exact behavior_inert hl1 (by simp [exVictim]) (by simp [exVictim]) (by simp [exVictim])
      (by simp [exVictim]) (by simp [exVictim]) rfl
  have hdist : distance exAttacker.position exVictim.position = 0 :=
    distance_eval (le_refl 0) (by norm_num [exAttacker, exVictim])
  have hatk : attackingStep exC5 2 =
      { exC5 with
        entities := mapUpdate (mapUpdate exC5.entities 2 (fun _ => exAttacker)) 1
          (fun tgt => { tgt with hp := tgt.hp - (10 : ℝ) * 0.2 }) } := by
    unfold attackingStep
    simp only [hl2]
    rw [if_pos (by rfl : exAttacker.state = "attacking")]
    simp only [show exAttacker.targetId = some 1 from rfl, hl1,
      show UNIT_STATS exAttacker.type = some ⟨80, 10, 2, 15⟩ from rfl]
    rw [hdist]
    simp [exVictim, exAttacker, playerLadders]
    intro h
    norm_num at h
  have hents : mapUpdate (mapUpdate exC5.entities 2 (fun _ => exAttacker)) 1
      (fun tgt => { tgt with hp := tgt.hp - (10 : ℝ) * 0.2 }) =
      [(1, { exVictim with hp := -1 }), (2, exAttacker)] := by
    show mapUpdate (mapUpdate [(1, exVictim), (2, exAttacker)] 2 (fun _ => exAttacker)) 1
      (fun tgt => { tgt with hp := tgt.hp - (10 : ℝ) * 0.2 }) = _
    norm_num [mapUpdate, exVictim]
  have hbeh2 : handleEntityBehavior exC5 2 =
      { exC5 with entities := [(1, { exVictim with hp := -1 }), (2, exAttacker)] } := by
    have hl2' : mapLookup
        ({ exC5 with entities := [(1, { exVictim with hp := -1 }), (2, exAttacker)] } :
          GameState).entities 2 = some exAttacker := rfl
    unfold handleEntityBehavior
    rw [buildingStep_skip hl2 (by simp [exAttacker]),
      gatheringStep_skip hl2 (by simp [exAttacker]),
      returningStep_skip hl2 (by simp [exAttacker]), hatk, hents,
      productionStep_skip_none hl2' rfl, movingStep_skip hl2' (by simp [exAttacker])]
  have htick : tick exC5 =
      ({ exC5 with entities := [(1, { exVictim with hp := -1 }), (2, exAttacker)] }, true) := by
    unfold tick
    rw [if_pos (by rfl : exC5.status = "playing")]
    rw [show exC5.entities.map Prod.fst = [1, 2] from rfl]
    rw [List.foldl_cons, hstep1, List.foldl_cons, List.foldl_nil]
    rw [tickStep_alive hl2 (by norm_num [exAttacker]), hbeh2]
  rw [htick]
  refine ⟨rfl, rfl, rfl, by norm_num [exVictim]⟩

/-- C8 (amended): a plain mover (state 'moving', no target entity, empty
production queue) within 5u of its destination goes idle and clears the
destination; its position is left unchanged rather than snapped onto the
destination. -/
theorem C8_arrival_goes_idle (g : GameState) (k : Nat) (e : Entity) (d : Position)
    (h : mapLookup g.entities k = some e) (hs : e.state = "moving")
    (ht : e.targetId = none) (hd : e.destination = some d)
    (hq : e.productionQueue = none) (hdist : distance e.position d < 5) :
    handleEntityBehavior g k = { g with entities := mapUpdate g.entities k (fun e' =>
      { e' with state := "idle", destination := none }) } :=
  behavior_moving_arrive h hs ht hd hq hdist

/-- C8 amended-claim witness at the concrete state exC8. -/
theorem C8_arrival_goes_idle_witness :
    handleEntityBehavior exC8 1 = { exC8 with entities := mapUpdate exC8.entities 1 (fun e' =>
      { e' with state := "idle", destination := none }) } := by
  have hd3 : distance exMover.position (⟨0, 0⟩ : Position) = 3 :=
    distance_eval (by norm_num) (by norm_num [exMover])
  exact C8_arrival_goes_idle exC8 1 exMover ⟨0, 0⟩ rfl rfl rfl rfl rfl
    (by rw [hd3]; norm_num)

/-- C8 counterexample: in exC8 the mover is 3u (within 5u) of its
destination (0,0); the behavior pass makes it idle and clears the
destination, but its position stays at (3,0) — it is not set to the
destination as the claim asserts. -/
theorem C8_counterexample :
    mapLookup (handleEntityBehavior exC8 1).entities 1 =
      some { exMover with state := "idle", destination := none } ∧
    ({ exMover with state := "idle", destination := none } : Entity).position = ⟨3, 0⟩ ∧
    distance exMover.position (⟨0, 0⟩ : Position) < 5 ∧
    exMover.destination = some ⟨0, 0⟩ ∧
    (⟨3, 0⟩ : Position) ≠ (⟨0, 0⟩ : Position) := by
  have hd3 : distance exMover.position (⟨0, 0⟩ : Position) = 3 :=
    distance_eval (by norm_num) (by norm_num [exMover])
  have hb := behavior_moving_arrive (show mapLookup exC8.entities 1 = some exMover from rfl)
    rfl rfl rfl rfl (by rw [hd3]; norm_num)
  refine ⟨?_, rfl, by rw [hd3]; norm_num, rfl, ?_⟩
  · rw [hb]
    rfl
  · intro hcontra
    have hx := congrArg Position.x hcontra
    norm_num at hx

/-! Backward analysis of the behavior clauses: where the state value
'returning' can come from. -/

theorem lookup_update_back {m : List (Nat × Entity)} {k : Nat} {f : Entity → Entity}
    {e' : Entity} (hv : mapLookup (mapUpdate m k f) k = some e') :
    ∃ e0, mapLookup m k = some e0 ∧ e' = f e0 := by
  rw [mapLookup_update, if_pos (rfl : k = k)] at hv
  rcases hE : mapLookup m k with _ | e0
  · rw [hE] at hv
    cases hv
  · rw [hE] at hv
    refine ⟨e0, rfl, ?_⟩
    simpa using hv.symm

theorem lookup_update_append_back_k {m : List (Nat × Entity)} {k : Nat}
    {f : Entity → Entity} {n : Nat} {x e' : Entity}
    (hv : mapLookup (mapUpdate m k f ++ [(n, x)]) k = some e') :
    (∃ e0, mapLookup m k = some e0 ∧ e' = f e0) ∨ e' = x := by
  rcases mapLookup_append_back hv with h | rfl
  · exact Or.inl (lookup_update_back h)
  · exact Or.inr rfl

theorem lookup_append_update_back_k {m : List (Nat × Entity)} {k : Nat}
    {f : Entity → Entity} {n : Nat} {x e' : Entity}
    (hv : mapLookup (mapUpdate (m ++ [(n, x)]) k f) k = some e') :
    (∃ e0, mapLookup m k = some e0 ∧ e' = f e0) ∨ e' = f x := by
  obtain ⟨e0, hE0, hfe⟩ := lookup_update_back hv
  rcases mapLookup_append_back hE0 with h | rfl
  · exact Or.inl ⟨e0, h, hfe⟩
  · exact Or.inr hfe

theorem buildingStep_back_ret {g : GameState} {k : Nat} {e' : Entity}
    (hv : mapLookup (buildingStep g k).entities k = some e')
    (hret : e'.state = "returning") :
    ∃ e0, mapLookup g.entities k = some e0 ∧ e0.state = "returning" := by
  unfold buildingStep at hv
  rcases hks : mapLookup g.entities k with _ | e
  · exfalso
    rw [hks] at hv
    have hcontra : mapLookup g.entities k = some e' := hv
    rw [hks] at hcontra
    cases hcontra
  · simp only [hks] at hv
    by_cases hst : e.state = "building"
    · rw [if_pos hst] at hv
      rcases htp : e.targetPosition with _ | tp
      · simp only [htp] at hv
        rw [hks] at hv
        cases hv
        exact ⟨_, rfl, hret⟩
      · simp only [htp] at hv
        by_cases hd : distance e.position tp > 30
        · rw [if_pos hd] at hv
          replace hv : mapLookup
              (mapUpdate g.entities k (fun x => moveTowards g x tp)) k = some e' := hv
          obtain ⟨e0, hE0, hfe⟩ := lookup_update_back hv
          rw [hks] at hE0
          cases hE0
          rw [hfe] at hret
          rcases moveTowards_state g e tp with h | h <;> rw [h] at hret
          · rw [hst] at hret
            simp at hret
          · simp at hret
        · rw [if_neg hd] at hv
          rcases hbt : e.buildType with _ | bt
          · simp only [hbt] at hv
            rw [hks] at hv
            cases hv
            exact ⟨_, rfl, hret⟩
          · simp only [hbt] at hv
            rcases hbs : BUILDING_STATS bt with _ | bs
            · simp only [hbs] at hv
              rw [hks] at hv
              cases hv
              exact ⟨_, rfl, hret⟩
            · simp only [hbs] at hv
              replace hv : mapLookup
                  (mapUpdate g.entities k (fun x =>
                    { x with state := "idle", targetPosition := none, buildType := none }) ++
                  [(g.nextId, freshEntity g.nextId e.playerId bt tp bs.hp)]) k = some e' := hv
              rcases lookup_update_append_back_k hv with ⟨e0, hE0, hfe⟩ | hfe
              · rw [hfe] at hret
                simp at hret
              · rw [hfe] at hret
                simp [freshEntity] at hret
    · rw [if_neg hst] at hv
      rw [hks] at hv
      cases hv
      exact ⟨_, rfl, hret⟩

theorem gatheringStep_back_ret {g : GameState} {k : Nat} {e' : Entity}
    (hv : mapLookup (gatheringStep g k).entities k = some e')
    (hret : e'.state = "returning") :
    (∃ e0, mapLookup g.entities k = some e0 ∧ e0.state = "returning") ∨
    (∃ e0 t r, mapLookup g.entities k = some e0 ∧ e0.state = "gathering" ∧
      e0.targetId = some t ∧ g.resources.find? (fun rr => rr.id == t) = some r ∧
      distance e0.position r.position < 30) := by
  unfold gatheringStep at hv
  rcases hks : mapLookup g.entities k with _ | e
  · exfalso
    rw [hks] at hv
    have hcontra : mapLookup g.entities k = some e' := hv
    rw [hks] at hcontra
    cases hcontra
  · simp only [hks] at hv
    by_cases hst : e.state = "gathering"
    · rw [if_pos hst] at hv
      rcases ht : e.targetId with _ | t
      · simp only [ht] at hv
        rw [hks] at hv
        cases hv
        exact Or.inl ⟨_, rfl, hret⟩
      · simp only [ht] at hv
        rcases hres : g.resources.find? (fun rr => rr.id == t) with _ | r
        · simp only [hres] at hv
          replace hv : mapLookup
              (mapUpdate g.entities k (fun x => { x with state := "idle" })) k = some e' := hv
          obtain ⟨e0, hE0, hfe⟩ := lookup_update_back hv
          rw [hfe] at hret
          simp at hret
        · simp only [hres] at hv
          by_cases hd : distance e.position r.position < 30
          · rw [if_pos hd] at hv
            exact Or.inr ⟨e, t, r, rfl, hst, ht, hres, hd⟩
          · rw [if_neg hd] at hv
            replace hv : mapLookup
                (mapUpdate g.entities k (fun x => moveTowards g x r.position)) k = some e' := hv
            obtain ⟨e0, hE0, hfe⟩ := lookup_update_back hv
            rw [hks] at hE0
            cases hE0
            rw [hfe] at hret
            rcases moveTowards_state g e r.position with h | h <;> rw [h] at hret
            · rw [hst] at hret
              simp at hret
            · simp at hret
    · rw [if_neg hst] at hv
      rw [hks] at hv
      cases hv
      exact Or.inl ⟨_, rfl, hret⟩

theorem returningStep_back_ret {g : GameState} {k : Nat} {e' : Entity}
    (hv : mapLookup (returningStep g k).entities k = some e')
    (hret : e'.state = "returning") :
    ∃ e0, mapLookup g.entities k = some e0 ∧ e0.state = "returning" := by
  unfold returningStep at hv
  rcases hks : mapLookup g.entities k with _ | e
  · exfalso
    rw [hks] at hv
    have hcontra : mapLookup g.entities k = some e' := hv
    rw [hks] at hcontra
    cases hcontra
  · by_cases hst : e.state = "returning"
    · exact ⟨e, rfl, hst⟩
    · simp only [hks] at hv
      rw [if_neg hst] at hv
      rw [hks] at hv
      cases hv
      exact ⟨_, rfl, hret⟩

/-- Generic shape of the combat clause's three terminal writes: whatever
branch fires, the entity stored at k is E2 itself, a moveTowards image of
E2 (state E2.state or idle), or untouched-except-hp, so a non-returning
E2 never yields a returning entity at k. -/
theorem attack_tree_back {G1 : GameState} {E2 : Entity} {k t : Nat} {e' : Entity}
    {c1 c2 : Prop} [Decidable c1] [Decidable c2] {P1 P2 : Position} {dmg : ℝ}
    (hv : mapLookup
      (if c1 then
        (if c2 then
          { G1 with entities := mapUpdate G1.entities k (fun _ => moveTowards G1 E2 P1) }
        else
          { G1 with entities :=
                      mapUpdate (mapUpdate G1.entities k (fun _ => E2)) t
                        (fun tgt => { tgt with hp := tgt.hp - dmg }) })
      else
        { G1 with entities := mapUpdate G1.entities k (fun _ => moveTowards G1 E2 P2) }).entities
      k = some e')
    (hE2 : E2.state ≠ "returning") :
    e'.state ≠ "returning" := by
  by_cases h1 : c1
  · rw [if_pos h1] at hv
    by_cases h2 : c2
    · rw [if_pos h2] at hv
      replace hv : mapLookup
          (mapUpdate G1.entities k (fun _ => moveTowards G1 E2 P1)) k = some e' := hv
      obtain ⟨e0, hE0, hfe⟩ := lookup_update_back hv
      rw [hfe]
      show (moveTowards G1 E2 P1).state ≠ "returning"
      rcases moveTowards_state G1 E2 P1 with h | h <;> rw [h]
      · exact hE2
      · simp
    · rw [if_neg h2] at hv
      replace hv : mapLookup (mapUpdate (mapUpdate G1.entities k (fun _ => E2)) t
          (fun tgt => { tgt with hp := tgt.hp - dmg })) k = some e' := hv
      rw [mapLookup_update] at hv
      by_cases htk : k = t
      · rw [if_pos htk] at hv
        rcases hE1 : mapLookup (mapUpdate G1.entities k (fun _ => E2)) t with _ | w
        · rw [hE1] at hv
          cases hv
        · rw [hE1] at hv
          have hfe : e' = { w with hp := w.hp - dmg } := by
            simpa using hv.symm
          rw [← htk] at hE1
          obtain ⟨e0, hE0, hw⟩ := lookup_update_back hE1
          rw [hfe, hw]
          show E2.state ≠ "returning"
          exact hE2
      · rw [if_neg htk] at hv
        obtain ⟨e0, hE0, hfe⟩ := lookup_update_back hv
        rw [hfe]
        show E2.state ≠ "returning"
        exact hE2
  · rw [if_neg h1] at hv
    replace hv : mapLookup
        (mapUpdate G1.entities k (fun _ => moveTowards G1 E2 P2)) k = some e' := hv
    obtain ⟨e0, hE0, hfe⟩ := lookup_update_back hv
    rw [hfe]
    show (moveTowards G1 E2 P2).state ≠ "returning"
    rcases moveTowards_state G1 E2 P2 with h | h <;> rw [h]
    · exact hE2
    · simp

theorem attackingStep_back_ret {g : GameState} {k : Nat} {e' : Entity}
    (hv : mapLookup (attackingStep g k).entities k = some e')
    (hret : e'.state = "returning") :
    ∃ e0, mapLookup g.entities k = some e0 ∧ e0.state = "returning" := by
  rcases hks : mapLookup g.entities k with _ | e
  · unfold attackingStep at hv
    exfalso
    rw [hks] at hv
    have hcontra : mapLookup g.entities k = some e' := hv
    rw [hks] at hcontra
    cases hcontra
  · by_cases hst : e.state = "attacking"
    · exfalso
      unfold attackingStep at hv
      simp only [hks] at hv
      rw [if_pos hst] at hv
      rcases ht : e.targetId with _ | t
      · simp only [ht] at hv
        rw [hks] at hv
        cases hv
        rw [hret] at hst
        simp at hst
      · simp only [ht] at hv
        rcases htgt : mapLookup g.entities t with _ | target
        · simp only [htgt] at hv
          replace hv : mapLookup (mapUpdate g.entities k (fun x =>
              { x with state := "idle", isClimbing := false })) k = some e' := hv
          obtain ⟨e0, hE0, hfe⟩ := lookup_update_back hv
          rw [hfe] at hret
          simp at hret
        · simp only [htgt] at hv
          rcases hus : UNIT_STATS e.type with _ | stats
          · simp only [hus] at hv
            rw [hks] at hv
            cases hv
            rw [hret] at hst
            simp at hst
          · simp only [hus] at hv
            exact absurd hret (attack_tree_back hv (by split_ifs <;> simp [hst]))
    · rw [attackingStep_skip hks hst] at hv
      rw [hks] at hv
      cases hv
      exact ⟨_, rfl, hret⟩


/-- Backward reading of a keyed in-place update whose writer forces a
fixed state. -/
theorem upd_state_back {m : List (Nat × Entity)} {k : Nat} {f : Entity → Entity}
    {e' : Entity} {st : String} (hf : ∀ x, (f x).state = st)
    (hv : mapLookup (mapUpdate m k f) k = some e') : e'.state = st := by
  obtain ⟨e0, hE0, hfe⟩ := lookup_update_back hv
  rw [hfe]
  exact hf e0

/-- The record-shaped variant of upd_state_back, matching the clause
results as elaborated. -/
theorem upd_state_back_rec {G1 : GameState} {k : Nat} {f : Entity → Entity}
    {e' : Entity} {st : String} (hf : ∀ x, (f x).state = st)
    (hv : mapLookup
      ({ G1 with entities := mapUpdate G1.entities k f } : GameState).entities k = some e') :
    e'.state = st := by
  replace hv : mapLookup (mapUpdate G1.entities k f) k = some e' := hv
  exact upd_state_back hf hv

/-- Only an already-returning entity can come out of the production
clause in state returning: the clause writes idle, producing, or the
entity's own prior state. -/
theorem productionStep_back_ret {g : GameState} {k : Nat} {e' : Entity}
    (hv : mapLookup (productionStep g k).entities k = some e')
    (hret : e'.state = "returning") :
    ∃ e0, mapLookup g.entities k = some e0 ∧ e0.state = "returning" := by
  unfold productionStep at hv
  rcases hks : mapLookup g.entities k with _ | e
  · exfalso
    rw [hks] at hv
    have hcontra : mapLookup g.entities k = some e' := hv
    rw [hks] at hcontra
    cases hcontra
  · simp only [hks] at hv
    rcases hq : e.productionQueue with _ | q
    · simp only [hq] at hv
      rw [hks] at hv
      cases hv
      exact ⟨_, rfl, hret⟩
    · simp only [hq] at hv
      by_cases hcond : e.state = "producing" ∨ q ≠ []
      · rw [if_pos hcond] at hv
        by_cases htm : (if e.productionTimer.getD 0 = 0
            then (q.head?.bind PRODUCTION_TIME).getD 5000
            else e.productionTimer.getD 0) - 100 ≤ 0
        · rw [if_pos htm] at hv
          have hst : e'.state = (if q.tail = [] then "idle"
              else if e.productionTimer.getD 0 = 0 then "producing" else e.state) :=
            upd_state_back_rec (fun x => rfl) hv
          rw [hret] at hst
          by_cases hqt : q.tail = []
          · rw [if_pos hqt] at hst
            simp at hst
          · rw [if_neg hqt] at hst
            by_cases htz : e.productionTimer.getD 0 = 0
            · rw [if_pos htz] at hst
              simp at hst
            · rw [if_neg htz] at hst
              exact ⟨e, rfl, hst.symm⟩
        · rw [if_neg htm] at hv
          have hst : e'.state =
              (if e.productionTimer.getD 0 = 0 then "producing" else e.state) :=
            upd_state_back_rec (fun x => rfl) hv
          rw [hret] at hst
          by_cases htz : e.productionTimer.getD 0 = 0
          · rw [if_pos htz] at hst
            simp at hst
          · rw [if_neg htz] at hst
            exact ⟨e, rfl, hst.symm⟩
      · rw [if_neg hcond] at hv
        rw [hks] at hv
        cases hv
        exact ⟨_, rfl, hret⟩

/-- Only an already-returning entity can come out of the plain-movement
clause in state returning: the clause writes idle or keeps the prior
state. -/
theorem movingStep_back_ret {g : GameState} {k : Nat} {e' : Entity}
    (hv : mapLookup (movingStep g k).entities k = some e')
    (hret : e'.state = "returning") :
    ∃ e0, mapLookup g.entities k = some e0 ∧ e0.state = "returning" := by
  unfold movingStep at hv
  rcases hks : mapLookup g.entities k with _ | e
  · exfalso
    rw [hks] at hv
    have hcontra : mapLookup g.entities k = some e' := hv
    rw [hks] at hcontra
    cases hcontra
  · simp only [hks] at hv
    by_cases hcond : e.state = "moving" ∧ e.targetId = none
    · rw [if_pos hcond] at hv
      rcases hdst : e.destination with _ | dest
      · simp only [hdst] at hv
        rw [hks] at hv
        cases hv
        exact ⟨_, rfl, hret⟩
      · simp only [hdst] at hv
        by_cases harr : distance e.position dest < 5
        · rw [if_pos harr] at hv
          exfalso
          have hst : e'.state = "idle" := upd_state_back_rec (fun x => rfl) hv
          rw [hret] at hst
          simp at hst
        · rw [if_neg harr] at hv
          exfalso
          replace hv : mapLookup
              (mapUpdate g.entities k (fun x => moveTowards g x dest)) k = some e' := hv
          obtain ⟨e0, hE0, hfe⟩ := lookup_update_back hv
          rw [hks] at hE0
          cases hE0
          rw [hfe] at hret
          rcases moveTowards_state g e dest with h | h <;> rw [h] at hret
          · rw [hcond.1] at hret
            simp at hret
          · simp at hret
    · rw [if_neg hcond] at hv
      rw [hks] at hv
      cases hv
      exact ⟨_, rfl, hret⟩

/-- An entity that comes out of the building clause in state gathering
was untouched by it: the clause only ever writes building-movement or
idle states. -/
theorem buildingStep_back_gather {g : GameState} {k : Nat} {e' : Entity}
    (hv : mapLookup (buildingStep g k).entities k = some e')
    (hgat : e'.state = "gathering") :
    mapLookup g.entities k = some e' := by
  unfold buildingStep at hv
  rcases hks : mapLookup g.entities k with _ | e
  · rw [hks] at hv
    replace hv : mapLookup g.entities k = some e' := hv
    rw [hks] at hv
    exact hv
  · simp only [hks] at hv
    by_cases hst : e.state = "building"
    · rw [if_pos hst] at hv
      rcases htp : e.targetPosition with _ | tp
      · simp only [htp] at hv
        rw [hks] at hv
        exact hv
      · simp only [htp] at hv
        by_cases hd : distance e.position tp > 30
        · rw [if_pos hd] at hv
          exfalso
          replace hv : mapLookup
              (mapUpdate g.entities k (fun x => moveTowards g x tp)) k = some e' := hv
          obtain ⟨e0, hE0, hfe⟩ := lookup_update_back hv
          rw [hks] at hE0
          cases hE0
          rw [hfe] at hgat
          rcases moveTowards_state g e tp with h | h <;> rw [h] at hgat
          · rw [hst] at hgat
            simp at hgat
          · simp at hgat
        · rw [if_neg hd] at hv
          rcases hbt : e.buildType with _ | bt
          · simp only [hbt] at hv
            rw [hks] at hv
            exact hv
          · simp only [hbt] at hv
            rcases hbs : BUILDING_STATS bt with _ | bs
            · simp only [hbs] at hv
              rw [hks] at hv
              exact hv
            · simp only [hbs] at hv
              exfalso
              replace hv : mapLookup
                  (mapUpdate g.entities k (fun x =>
                    { x with state := "idle", targetPosition := none, buildType := none }) ++
                  [(g.nextId, freshEntity g.nextId e.playerId bt tp bs.hp)]) k = some e' := hv
              rcases lookup_update_append_back_k hv with ⟨e0, hE0, hfe⟩ | hfe
              · rw [hfe] at hgat
                simp at hgat
              · rw [hfe] at hgat
                simp [freshEntity] at hgat
    · rw [if_neg hst] at hv
      rw [hks] at hv
      exact hv

/-- The building clause never touches the resource node list. -/
theorem buildingStep_resources (g : GameState) (k : Nat) :
    (buildingStep g k).resources = g.resources := by
  unfold buildingStep
  repeat' split
  all_goals rfl

/-- Across the whole behavior machine, the only source of state
'returning' is the gathering clause firing on a gathering entity within
30 of its target resource; any other returning output was already
returning on entry. -/
theorem behavior_back_ret {g : GameState} {k : Nat} {e' : Entity}
    (hv : mapLookup (handleEntityBehavior g k).entities k = some e')
    (hret : e'.state = "returning") :
    (∃ e0, mapLookup g.entities k = some e0 ∧ e0.state = "returning") ∨
    (∃ e0 t r, mapLookup g.entities k = some e0 ∧ e0.state = "gathering" ∧
      e0.targetId = some t ∧ g.resources.find? (fun rr => rr.id == t) = some r ∧
      distance e0.position r.position < 30) := by
  unfold handleEntityBehavior at hv
  obtain ⟨e4, hv4, hs4⟩ := movingStep_back_ret hv hret
  obtain ⟨e3, hv3, hs3⟩ := productionStep_back_ret hv4 hs4
  obtain ⟨e2, hv2, hs2⟩ := attackingStep_back_ret hv3 hs3
  obtain ⟨e1, hv1, hs1⟩ := returningStep_back_ret hv2 hs2
  rcases gatheringStep_back_ret hv1 hs1 with ⟨e0, hv0, hs0⟩ | ⟨e0, t, r, hv0, hs0, ht0, hr0, hd0⟩
  · exact Or.inl (buildingStep_back_ret hv0 hs0)
  · have hg0 : mapLookup g.entities k = some e0 := buildingStep_back_gather hv0 hs0
    rw [buildingStep_resources g k] at hr0
    exact Or.inr ⟨e0, t, r, hg0, hs0, ht0, hr0, hd0⟩

/-- C6: a returning lumberjack (with an empty production queue) whose
owner's first-listed hub is alive and within 50u credits the owner with
exactly one wood and switches to state gathering, all its other fields
(in particular targetId) untouched; and conversely, across the whole
behavior machine the only way an entity comes out in state returning
without having entered in it is the gathering clause firing on a
gathering entity within 30u of its target resource node. -/
theorem C6_gather_return_cycle {g : GameState} {k hk : Nat} {e hub : Entity}
    {pl : PlayerState}
    (hks : mapLookup g.entities k = some e)
    (hty : e.type = "lumberjack")
    (hst : e.state = "returning")
    (hq : e.productionQueue = none)
    (hhub : g.entities.find?
      (fun p => p.2.type == "hub" && p.2.playerId == e.playerId) = some (hk, hub))
    (hhp : hub.hp > 0)
    (hdist : distance e.position hub.position < 50)
    (hpl : mapLookup g.players e.playerId = some pl) :
    (mapLookup (handleEntityBehavior g k).entities k =
        some { e with state := "gathering" } ∧
      mapLookup (handleEntityBehavior g k).players e.playerId =
        some { pl with resources :=
          { pl.resources with wood := pl.resources.wood + 1 } }) ∧
    (∀ g' : GameState, ∀ k' : Nat, ∀ e' : Entity,
      mapLookup (handleEntityBehavior g' k').entities k' = some e' →
      e'.state = "returning" →
      (∃ e0, mapLookup g'.entities k' = some e0 ∧ e0.state = "returning") ∨
      (∃ e0 t r, mapLookup g'.entities k' = some e0 ∧ e0.state = "gathering" ∧
        e0.targetId = some t ∧
        g'.resources.find? (fun rr => rr.id == t) = some r ∧
        distance e0.position r.position < 30)) := by
  have h1 : buildingStep g k = g := buildingStep_skip hks (by rw [hst]; simp)
  have h2 : gatheringStep g k = g := gatheringStep_skip hks (by rw [hst]; simp)
  have h3 : returningStep g k = { g with
      players := mapUpdate g.players e.playerId (fun q =>
        { q with resources := { q.resources with wood := q.resources.wood + 1 } }),
      entities := mapUpdate g.entities k (fun x => { x with state := "gathering" }) } := by
    unfold returningStep
    simp only [hks]
    rw [if_pos hst]
    simp only [hhub]
    rw [if_pos hdist]
    simp only [hty]
    simp
  have hks3 : mapLookup (returningStep g k).entities k =
      some { e with state := "gathering" } := by
    rw [h3]
    show mapLookup (mapUpdate g.entities k (fun x => { x with state := "gathering" })) k = _
    rw [mapLookup_update, if_pos (by rfl : k = k), hks]
    rfl
  have hpl3 : mapLookup (returningStep g k).players e.playerId =
      some { pl with resources := { pl.resources with wood := pl.resources.wood + 1 } } := by
    rw [h3]
    show mapLookup (mapUpdate g.players e.playerId (fun q =>
      { q with resources := { q.resources with wood := q.resources.wood + 1 } })) e.playerId = _
    rw [mapLookup_update, if_pos (by rfl : e.playerId = e.playerId), hpl]
    rfl
  have h4 : attackingStep (returningStep g k) k = returningStep g k :=
    attackingStep_skip hks3 (by simp)
  have h5 : productionStep (returningStep g k) k = returningStep g k :=
    productionStep_skip_none hks3 hq
  have h6 : movingStep (returningStep g k) k = returningStep g k :=
    movingStep_skip hks3 (by simp)
  refine ⟨⟨?_, ?_⟩, ?_⟩
  · unfold handleEntityBehavior
    rw [h1, h2, h4, h5, h6]
    exact hks3
  · unfold handleEntityBehavior
    rw [h1, h2, h4, h5, h6]
    exact hpl3
  · exact fun g' k' e' hv hret => behavior_back_ret hv hret

/-- The C6 cycle evaluated on a concrete returning lumberjack 10u from
its owner's hub. -/
theorem C6_gather_return_cycle_witness :
    mapLookup (handleEntityBehavior exC6 1).entities 1 =
        some { exReturner with state := "gathering" } ∧
      mapLookup (handleEntityBehavior exC6 1).players 1 =
        some { exPlayer 1 "blue" with resources :=
          { (exPlayer 1 "blue").resources with
              wood := (exPlayer 1 "blue").resources.wood + 1 } } :=
  (C6_gather_return_cycle (by rfl) rfl rfl rfl (by rfl)
    (by norm_num [exHomeHub])
    (lt_of_eq_of_lt
      (show distance exReturner.position exHomeHub.position = 10 from
        distance_eval (by norm_num) (by norm_num [exReturner, exHomeHub]))
      (by norm_num))
    (by rfl)).1

/-- C7: a non-climbing entity whose step (remaining distance > 5) would
land within wallSize / 2 + 10 of a live wall does not move this tick; a
plain mover reverts to idle and loses its destination, any other state is
left entirely unchanged (only blocked). -/
theorem C7_wall_blocks_step {g : GameState} {e : Entity} {t : Position}
    (hclimb : e.isClimbing = false)
    (hdist : Real.sqrt ((t.x - e.position.x) * (t.x - e.position.x) +
      (t.y - e.position.y) * (t.y - e.position.y)) > 5)
    (hcol : wallCollision g (stepPos e t)) :
    moveTowards g e t =
      if e.state = "moving" then { e with state := "idle", destination := none }
      else e := by
  unfold moveTowards
  simp only []
  rw [if_pos hdist]
  rw [if_pos (show ¬e.isClimbing = true ∧ wallCollision g (stepPos e t) from
    ⟨by rw [hclimb]; simp, hcol⟩)]

/-- C7 evaluated on a concrete knight 35u from its target whose 6u step
would end 29u from a live wall (inside the 30u exclusion ring). -/
theorem C7_wall_blocks_step_witness :
    moveTowards exC7 exKnightMover ⟨0, 0⟩ =
      (if exKnightMover.state = "moving"
        then { exKnightMover with state := "idle", destination := none }
        else exKnightMover) :=
  C7_wall_blocks_step rfl
    (by
      norm_num [exKnightMover]
      rw [show Real.sqrt (1225 : ℝ) = 35 from sqrt_eval (by norm_num) (by norm_num)]
      norm_num)
    (by
      have hsp : stepPos exKnightMover ⟨0, 0⟩ = ⟨29, 0⟩ := by
        unfold stepPos unitSpeed
        norm_num [exKnightMover, UNIT_STATS]
        rw [show Real.sqrt (1225 : ℝ) = 35 from sqrt_eval (by norm_num) (by norm_num)]
        norm_num
      rw [hsp]
      refine ⟨(3, exWall), by simp [exC7], rfl, by norm_num [exWall], ?_⟩
      norm_num [exWall, wallSize]
      rw [show Real.sqrt (841 : ℝ) = 29 from sqrt_eval (by norm_num) (by norm_num)]
      norm_num)

/-- C10: when the remaining distance is at most 5 the movement resolver
snaps the entity exactly onto the target with no wall-collision scan, so
even a non-climbing entity whose target collides with a live wall is
placed there. -/
theorem C10_snap_ignores_walls {g : GameState} {e : Entity} {t : Position}
    (hclimb : e.isClimbing = false)
    (hcol : wallCollision g t)
    (hdist : ¬ Real.sqrt ((t.x - e.position.x) * (t.x - e.position.x) +
      (t.y - e.position.y) * (t.y - e.position.y)) > 5) :
    moveTowards g e t = { e with position := t } := by
  unfold moveTowards
  simp only []
  rw [if_neg hdist]

/-- C10 evaluated on a concrete non-climbing lumberjack snapping onto a
destination 12u from a live wall (inside the 30u exclusion ring). -/
theorem C10_snap_ignores_walls_witness :
    moveTowards exC7 exSnapper ⟨12, 0⟩ = { exSnapper with position := ⟨12, 0⟩ } :=
  C10_snap_ignores_walls rfl
    ⟨(3, exWall), by simp [exC7], rfl, by norm_num [exWall],
      by
        norm_num [exWall, wallSize]
        rw [show Real.sqrt (144 : ℝ) = 12 from sqrt_eval (by norm_num) (by norm_num)]
        norm_num⟩
    (by
      norm_num [exSnapper]
      rw [show Real.sqrt (4 : ℝ) = 2 from sqrt_eval (by norm_num) (by norm_num)]
      norm_num)

/-- C4 (counterexample): an action_move intent whose payload is missing
raises out of the command processor (the source destructures
action.payload before any guard). -/
theorem C4_counterexample :
    handleAction 1 { type := "action_move", payload := none } exC8 = .error () := rfl

/-- C4 (amended): an intent with an unknown type string is absorbed with
no state change, but an intent of a known type whose payload is absent
raises to the caller. -/
theorem C4_absorption :
    (∀ pid : Nat, ∀ a : Action, ∀ g : GameState,
      a.type ≠ "action_move" → a.type ≠ "action_gather" → a.type ≠ "action_attack" →
      a.type ≠ "action_build" → a.type ≠ "action_train" →
      handleAction pid a g = .ok g) ∧
    (∀ pid : Nat, ∀ g : GameState,
      handleAction pid { type := "action_move", payload := none } g = .error ()) := by
  constructor
  · intro pid a g h1 h2 h3 h4 h5
    unfold handleAction
    rw [if_neg h1, if_neg h2, if_neg h3, if_neg h4, if_neg h5]
  · intro pid g
    rfl

/-- C4 absorption and raising evaluated at a concrete unknown intent and
a concrete payload-free action_move. -/
theorem C4_absorption_witness :
    handleAction 1 { type := "noop", payload := none } exC8 = .ok exC8 ∧
    handleAction 1 { type := "action_move", payload := none } exC8 = .error () :=
  ⟨C4_absorption.1 1 { type := "noop", payload := none } exC8
      (by simp) (by simp) (by simp) (by simp) (by simp),
    C4_absorption.2 1 exC8⟩

/-- C3: a Train command whose item cost exceeds the acting player's held
wood, stone or iron is dropped whole: the returned state is the input
state, so no resource is deducted and no queue is touched. -/
theorem C3_train_unaffordable {g : GameState} {pid bId : Nat} {pay : Payload}
    {b : Entity} {u : String} {cost : Cost} {pl : PlayerState}
    (hbid : pay.buildingId = some bId)
    (hb : mapLookup g.entities bId = some b)
    (hown : b.playerId = pid)
    (hu : pay.unitType = some u)
    (hcost : COSTS u = some cost)
    (hpl : mapLookup g.players pid = some pl)
    (haff : (cost.wood ≠ 0 ∧ pl.resources.wood < cost.wood) ∨
            (cost.stone ≠ 0 ∧ pl.resources.stone < cost.stone) ∨
            (cost.iron ≠ 0 ∧ pl.resources.iron < cost.iron)) :
    handleAction pid { type := "action_train", payload := some pay } g = .ok g := by
  unfold handleAction
  rw [if_neg (by simp : ¬("action_train" : String) = "action_move")]
  rw [if_neg (by simp : ¬("action_train" : String) = "action_gather")]
  rw [if_neg (by simp : ¬("action_train" : String) = "action_attack")]
  rw [if_neg (by simp : ¬("action_train" : String) = "action_build")]
  rw [if_pos (by rfl : ("action_train" : String) = "action_train")]
  simp only [hbid, hb, hu, hcost, hpl]
  rw [if_pos hown]
  rw [if_pos haff]

/-- C3 evaluated: Train(miner) (cost 5 wood, 2 stone) by a player with 3
wood leaves the state untouched. -/
theorem C3_train_unaffordable_witness :
    handleAction 1 { type := "action_train", payload := some exTrainPay } exC3 = .ok exC3 :=
  C3_train_unaffordable rfl (by rfl) (by rfl) rfl (by rfl) (by rfl)
    (Or.inl ⟨by norm_num, by norm_num [exPoor]⟩)

/-- A Train command resolving to an entity of another player is dropped
whole. -/
theorem handleAction_train_notowned {g : GameState} {pid bId : Nat} {pay : Payload}
    {b : Entity}
    (hbid : pay.buildingId = some bId)
    (hb : mapLookup g.entities bId = some b)
    (hown : b.playerId ≠ pid) :
    handleAction pid { type := "action_train", payload := some pay } g = .ok g := by
  unfold handleAction
  rw [if_neg (by simp : ¬("action_train" : String) = "action_move")]
  rw [if_neg (by simp : ¬("action_train" : String) = "action_gather")]
  rw [if_neg (by simp : ¬("action_train" : String) = "action_attack")]
  rw [if_neg (by simp : ¬("action_train" : String) = "action_build")]
  rw [if_pos (by rfl : ("action_train" : String) = "action_train")]
  simp only [hbid, hb]
  rw [if_neg hown]

/-- The affordable-Train equation: the acting player's entity (of any
kind) gets the item appended and the cost is deducted. -/
theorem handleAction_train_eval {g : GameState} {pid bId : Nat} {pay : Payload}
    {b : Entity} {u : String} {cost : Cost} {pl : PlayerState}
    (hbid : pay.buildingId = some bId)
    (hb : mapLookup g.entities bId = some b)
    (hown : b.playerId = pid)
    (hu : pay.unitType = some u)
    (hcost : COSTS u = some cost)
    (hpl : mapLookup g.players pid = some pl)
    (haff : ¬((cost.wood ≠ 0 ∧ pl.resources.wood < cost.wood) ∨
              (cost.stone ≠ 0 ∧ pl.resources.stone < cost.stone) ∨
              (cost.iron ≠ 0 ∧ pl.resources.iron < cost.iron))) :
    handleAction pid { type := "action_train", payload := some pay } g =
      .ok { g with
        players := mapUpdate g.players pid (deductCost cost true),
        entities := mapUpdate g.entities bId (fun e' =>
          { e' with productionQueue := some (e'.productionQueue.getD [] ++ [u]) }) } := by
  unfold handleAction
  rw [if_neg (by simp : ¬("action_train" : String) = "action_move")]
  rw [if_neg (by simp : ¬("action_train" : String) = "action_gather")]
  rw [if_neg (by simp : ¬("action_train" : String) = "action_attack")]
  rw [if_neg (by simp : ¬("action_train" : String) = "action_build")]
  rw [if_pos (by rfl : ("action_train" : String) = "action_train")]
  simp only [hbid, hb, hu, hcost, hpl]
  rw [if_pos hown]
  rw [if_neg haff]

/-- C9 (amended): Train only checks that the referenced entity exists and
belongs to the acting player — there is no building-kind check: a
foreign entity drops the command, but an owned entity of any kind (a
knight included) gets the item queued and the cost deducted when
affordable. -/
theorem C9_train_checks_owner_not_kind {g : GameState} {pid bId : Nat} {pay : Payload}
    (hbid : pay.buildingId = some bId) :
    (∀ b : Entity, mapLookup g.entities bId = some b → b.playerId ≠ pid →
      handleAction pid { type := "action_train", payload := some pay } g = .ok g) ∧
    (∀ b : Entity, ∀ u : String, ∀ cost : Cost, ∀ pl : PlayerState,
      mapLookup g.entities bId = some b → b.playerId = pid →
      pay.unitType = some u → COSTS u = some cost →
      mapLookup g.players pid = some pl →
      ¬((cost.wood ≠ 0 ∧ pl.resources.wood < cost.wood) ∨
        (cost.stone ≠ 0 ∧ pl.resources.stone < cost.stone) ∨
        (cost.iron ≠ 0 ∧ pl.resources.iron < cost.iron)) →
      handleAction pid { type := "action_train", payload := some pay } g =
        .ok { g with
          players := mapUpdate g.players pid (deductCost cost true),
          entities := mapUpdate g.entities bId (fun e' =>
            { e' with productionQueue := some (e'.productionQueue.getD [] ++ [u]) }) }) :=
  ⟨fun b hb hown => handleAction_train_notowned hbid hb hown,
    fun b u cost pl hb hown hu hcost hpl haff =>
      handleAction_train_eval hbid hb hown hu hcost hpl haff⟩

/-- C9 (counterexample): Train(miner) addressed to the acting player's
knight is not dropped — the state changes. -/
theorem C9_counterexample :
    handleAction 1 { type := "action_train", payload := some exTrainPay1 } exC5 ≠
      .ok exC5 := by
  rw [handleAction_train_eval rfl (by rfl) (by rfl) rfl (by rfl) (by rfl)
    (by norm_num [exPlayer])]
  intro h
  have h2 : ({ exC5 with
      players := mapUpdate exC5.players 1 (deductCost ⟨5, 2, 0⟩ true),
      entities := mapUpdate exC5.entities 1 (fun e' =>
        { e' with productionQueue := some (e'.productionQueue.getD [] ++ ["miner"]) }) } :
        GameState) = exC5 := by
    injection h
  have h3 := congrArg (fun s => mapLookup s.entities 1) h2
  replace h3 : mapLookup (mapUpdate exC5.entities 1 (fun e' =>
      { e' with productionQueue := some (e'.productionQueue.getD [] ++ ["miner"]) })) 1 =
      mapLookup exC5.entities 1 := h3
  rw [mapLookup_update, if_pos (by rfl : (1 : Nat) = 1),
    show mapLookup exC5.entities 1 = some exVictim from rfl] at h3
  simp [exVictim] at h3

/-- C9 evaluated: the knight under key 1 of exC5 receives the queued
miner and the owner pays the cost. -/
theorem C9_train_checks_owner_not_kind_witness :
    handleAction 1 { type := "action_train", payload := some exTrainPay1 } exC5 =
      .ok { exC5 with
        players := mapUpdate exC5.players 1 (deductCost ⟨5, 2, 0⟩ true),
        entities := mapUpdate exC5.entities 1 (fun e' =>
          { e' with productionQueue := some (e'.productionQueue.getD [] ++ ["miner"]) }) } :=
  (C9_train_checks_owner_not_kind rfl).2 exVictim "miner" ⟨5, 2, 0⟩ (exPlayer 1 "blue")
    (by rfl) (by rfl) rfl (by rfl) (by rfl) (by norm_num [exPlayer])

/-- C2: Build(hub) with a requested position within 60u of a stored
cluster center, by a player who already owns a hub, moves exactly that
hub onto the first matching center — no entity is created and no player
resources are touched; with no cluster within 60u the command returns
the state unchanged. -/
theorem C2_hub_snap {g : GameState} {pid : Nat} {pay : Payload} {pos : Position}
    {hk : Nat} {hub : Entity} {c : Position}
    (hbt : pay.buildingType = some "hub")
    (hpos : pay.position = some pos) :
    (g.resourceClusters.find? (fun cc => decide (distance pos cc < 60)) = some c →
      g.entities.find? (fun p => p.2.type == "hub" && p.2.playerId == pid) =
        some (hk, hub) →
      handleAction pid { type := "action_build", payload := some pay } g =
        .ok { g with entities :=
                mapUpdate g.entities hk (fun x => { x with position := c }) }) ∧
    (g.resourceClusters.find? (fun cc => decide (distance pos cc < 60)) = none →
      handleAction pid { type := "action_build", payload := some pay } g = .ok g) := by
  constructor
  · intro h1 h2
    unfold handleAction
    rw [if_neg (by simp : ¬("action_build" : String) = "action_move")]
    rw [if_neg (by simp : ¬("action_build" : String) = "action_gather")]
    rw [if_neg (by simp : ¬("action_build" : String) = "action_attack")]
    rw [if_pos (by rfl : ("action_build" : String) = "action_build")]
    simp only []
    rw [if_pos hbt]
    simp only [hpos, h1, h2]
  · intro h1
    unfold handleAction
    rw [if_neg (by simp : ¬("action_build" : String) = "action_move")]
    rw [if_neg (by simp : ¬("action_build" : String) = "action_gather")]
    rw [if_neg (by simp : ¬("action_build" : String) = "action_attack")]
    rw [if_pos (by rfl : ("action_build" : String) = "action_build")]
    simp only []
    rw [if_pos hbt]
    simp only [hpos, h1]

/-- C2 evaluated: requesting a hub 10u off the single stored cluster
center relocates the existing hub (key 7) onto the center. -/
theorem C2_hub_snap_witness :
    handleAction 1 { type := "action_build", payload := some exHubPay } exC2 =
      .ok { exC2 with entities :=
              mapUpdate exC2.entities 7 (fun x => { x with position := ⟨250, 250⟩ }) } :=
  (C2_hub_snap rfl rfl).1
    (by
      have hd : distance (⟨260, 250⟩ : Position) ⟨250, 250⟩ = 10 :=
        distance_eval (by norm_num) (by norm_num)
      show List.find? _ ((⟨250, 250⟩ : Position) :: []) = _
      refine List.find?_cons_of_pos _ ?_
      simp only [decide_eq_true_eq]
      rw [hd]
      norm_num)
    (by rfl)

end RTS

end
